import Mathlib

/-!
Verification development for the AI Karate test generator (`karate.py`).

Strings are modelled as `List Char` (`Str`); Python dicts as insertion-ordered
association lists; Python exceptions as an `Except` error type.  Every
definition is translated from the source file unless its doc comment says
otherwise.
-/

set_option maxHeartbeats 1000000
set_option maxRecDepth 20000

/-- Python strings are modelled as lists of characters. -/
abbrev Str := List Char

/-- Conversion from a Lean string literal to the `Str` model. -/
def sl (s : String) : Str := s.toList

/-- The single-quote character (written via its code point). -/
def squoteC : Char := Char.ofNat 39

/-- The double-quote character (written via its code point). -/
def dquoteC : Char := Char.ofNat 34

/-- Whitespace test used for Python `str.strip` / `str.split` / `\s`. -/
def isWsC (c : Char) : Bool :=
  c == ' ' || c == Char.ofNat 9 || c == Char.ofNat 10 || c == Char.ofNat 13 ||
  c == Char.ofNat 11 || c == Char.ofNat 12

/-- Python `\w` word character: letter, digit or underscore (ASCII model). -/
def isWordC (c : Char) : Bool := c.isAlphanum || c == '_'

/-- `leadsWith n h` holds when `n` is an initial segment of `h`
(Python `str.startswith`). -/
def leadsWith : Str → Str → Bool
  | [], _ => true
  | _ :: _, [] => false
  | a :: as, b :: bs => a == b && leadsWith as bs

/-- `hasSub n h` holds when `n` occurs contiguously inside `h`
(Python `in` on strings). -/
def hasSub (n : Str) : Str → Bool
  | [] => leadsWith n []
  | c :: t => leadsWith n (c :: t) || hasSub n t

/-- Python `str.lower` (ASCII model). -/
def lc (s : Str) : Str := s.map Char.toLower

/-- Python `str.upper` (ASCII model). -/
def uc (s : Str) : Str := s.map Char.toUpper

/-- Python `str.strip`. -/
def strip (s : Str) : Str :=
  ((s.dropWhile isWsC).reverse.dropWhile isWsC).reverse

/-- Splitting a text into lines (Python `str.split('\n')`). -/
def splitOnNl (s : Str) : List Str :=
  s.foldr
    (fun c acc =>
      match acc with
      | [] => if c == Char.ofNat 10 then [[], []] else [[c]]
      | g :: gs => if c == Char.ofNat 10 then [] :: g :: gs else (c :: g) :: gs)
    [[]]

/-- Python `str.split()` with no separator: whitespace-delimited words,
empty pieces dropped. -/
def wordsOf (s : Str) : List Str :=
  (s.foldr
    (fun c acc =>
      match acc with
      | [] => if isWsC c then [[]] else [[c]]
      | g :: gs => if isWsC c then [] :: g :: gs else (c :: g) :: gs)
    []).filter (fun g => !g.isEmpty)

/-- Python `'sep'.join(parts)`. -/
def joinSep (sep : Str) : List Str → Str
  | [] => []
  | [a] => a
  | a :: b :: t => a ++ sep ++ joinSep sep (b :: t)

/-- Fuel-driven worker for `replaceAllS`; the fuel bounds the number of scan
steps so the recursion is structural. -/
def replaceAllF (n r : Str) : Nat → Str → Str
  | 0, h => h
  | _ + 1, [] => []
  | fuel + 1, c :: t =>
      if leadsWith n (c :: t) && !n.isEmpty then
        r ++ replaceAllF n r fuel ((c :: t).drop n.length)
      else
        c :: replaceAllF n r fuel t

/-- Python `str.replace(n, r)` for a non-empty needle `n`. -/
def replaceAllS (n r h : Str) : Str := replaceAllF n r h.length h

/-- Python `str.title` (ASCII model): a cased character following a
non-cased one is uppercased, others are lowercased. -/
def titleGo : Bool → Str → Str
  | _, [] => []
  | prevAlpha, c :: t =>
      (if c.isAlpha then (if prevAlpha then c.toLower else c.toUpper) else c)
        :: titleGo c.isAlpha t

/-- Python `str.title` entry point. -/
def titleS (s : Str) : Str := titleGo false s

/-- Strict lexicographic comparison on strings by code point
(Python `<` on `str`). -/
def strLt : Str → Str → Bool
  | [], [] => false
  | [], _ :: _ => true
  | _ :: _, [] => false
  | a :: as, b :: bs =>
      if a.toNat < b.toNat then true
      else if b.toNat < a.toNat then false
      else strLt as bs

/-- Insert into an ascending list, used to model Python `sorted`. -/
def insertSorted (x : Str) : List Str → List Str
  | [] => [x]
  | y :: t => if strLt y x then y :: insertSorted x t else x :: y :: t

/-- Python `sorted` on a collection of strings. -/
def sortStr (l : List Str) : List Str := l.foldr insertSorted []

/-- Worker for `dedupKF`: drops elements already seen. -/
def dedupGo : List Str → List Str → List Str
  | _, [] => []
  | seen, x :: t =>
      if seen.contains x then dedupGo seen t else x :: dedupGo (x :: seen) t

/-- Deduplication keeping first occurrences; models building a Python `set`
(the result is always sorted afterwards, so only the member set matters). -/
def dedupKF (l : List Str) : List Str := dedupGo [] l

/-- Python dict assignment `m[k] = v` on an insertion-ordered association
list: overwrite in place, or append a new key at the end. -/
def assignA {α : Type} : List (Str × α) → Str → α → List (Str × α)
  | [], k, v => [(k, v)]
  | (k', v') :: t, k, v =>
      if k' = k then (k, v) :: t else (k', v') :: assignA t k v

/-- Python dict lookup `m[k]` (first matching key). -/
def lookupA {α : Type} : List (Str × α) → Str → Option α
  | [], _ => none
  | (k', v') :: t, k => if k' = k then some v' else lookupA t k

/-- The key list of an association list (Python `dict.keys()`). -/
def keysOf {α : Type} (m : List (Str × α)) : List Str := m.map Prod.fst

/-- Left-pad with `'0'` to a minimum width (Python `str.zfill`). -/
def zfillS (w : Nat) (s : Str) : Str :=
  List.replicate (w - s.length) '0' ++ s

/-- Decimal digits to a natural number. -/
def digitsToNat (s : Str) : Nat :=
  s.foldl (fun n c => n * 10 + (c.toNat - 48)) 0

-- ===========================================================================
-- Basic lemmas about the string utilities
-- ===========================================================================

theorem leadsWith_iff (n h : Str) : leadsWith n h = true ↔ ∃ q, h = n ++ q := by
  induction n generalizing h with
  | nil => simp [leadsWith]
  | cons a as ih =>
      cases h with
      | nil => simp [leadsWith]
      | cons b bs =>
          simp only [leadsWith, Bool.and_eq_true, beq_iff_eq, ih, List.cons_append,
            List.cons.injEq]
          constructor
          · rintro ⟨rfl, q, rfl⟩; exact ⟨q, rfl, rfl⟩
          · rintro ⟨q, rfl, rfl⟩; exact ⟨rfl, q, rfl⟩

theorem hasSub_iff (n h : Str) : hasSub n h = true ↔ ∃ p q, h = p ++ n ++ q := by
  induction h with
  | nil =>
      simp only [hasSub, leadsWith_iff]
      constructor
      · rintro ⟨q, hq⟩; exact ⟨[], q, by simpa using hq⟩
      · rintro ⟨p, q, hpq⟩
        refine ⟨q, ?_⟩
        cases p with
        | nil => simpa using hpq
        | cons x xs => simp at hpq
  | cons c t ih =>
      simp only [hasSub, Bool.or_eq_true, leadsWith_iff, ih]
      constructor
      · rintro (⟨q, hq⟩ | ⟨p, q, hpq⟩)
        · exact ⟨[], q, by simpa using hq⟩
        · exact ⟨c :: p, q, by simp [hpq]⟩
      · rintro ⟨p, q, hpq⟩
        cases p with
        | nil => exact Or.inl ⟨q, by simpa using hpq⟩
        | cons x xs =>
            simp only [List.cons_append, List.cons.injEq] at hpq
            exact Or.inr ⟨xs, q, hpq.2⟩

theorem hasSub_of_parts (n h p q : Str) (hh : h = p ++ n ++ q) :
    hasSub n h = true := (hasSub_iff n h).mpr ⟨p, q, hh⟩

theorem hasSub_trans {a b c : Str} (h1 : hasSub a b = true)
    (h2 : hasSub b c = true) : hasSub a c = true := by
  rcases (hasSub_iff a b).mp h1 with ⟨p1, q1, rfl⟩
  rcases (hasSub_iff _ c).mp h2 with ⟨p2, q2, rfl⟩
  exact hasSub_of_parts _ _ (p2 ++ p1) (q1 ++ q2) (by simp)

theorem joinSep_mem_parts (sep : Str) (L : List Str) (x : Str) (hx : x ∈ L) :
    ∃ p q, joinSep sep L = p ++ x ++ q := by
  induction L with
  | nil => cases hx
  | cons a t ih =>
      cases t with
      | nil =>
          rcases List.mem_singleton.mp hx with rfl
          exact ⟨[], [], by simp [joinSep]⟩
      | cons b t2 =>
          rcases List.mem_cons.mp hx with rfl | hmem
          · exact ⟨[], sep ++ joinSep sep (b :: t2), by simp [joinSep]⟩
          · rcases ih hmem with ⟨p, q, hpq⟩
            exact ⟨a ++ sep ++ p, q, by simp [joinSep, hpq]⟩

theorem hasSub_joinSep (sep : Str) (L : List Str) (x : Str) (hx : x ∈ L) :
    hasSub x (joinSep sep L) = true := by
  rcases joinSep_mem_parts sep L x hx with ⟨p, q, hpq⟩
  exact hasSub_of_parts _ _ p q hpq

-- ===========================================================================
-- Data models (karate.py dataclasses)
-- ===========================================================================

/-- `TransactionTemplate` dataclass. -/
structure TransactionTemplate where
  id : Str
  name : Str
  description : Str
  category : Str
  card_network : Str
  message_type : Str
  processing_code : Str
  fields : List (Str × Str)
  tags : List Str
deriving DecidableEq

/-- `ResponseCode` dataclass. -/
structure ResponseCode where
  code : Str
  message : Str
  category : Str
  trigger_field : Str
  trigger_value : Str
deriving DecidableEq

/-- `FieldDefinition` dataclass. -/
structure FieldDefinition where
  id : Str
  name : Str
  description : Str
  data_type : Str
  length : Nat
  format : Str
  exampleV : Str
deriving DecidableEq

/-- `SQLTable` dataclass; a column maps to its (type, description) pair. -/
structure SQLTable where
  name : Str
  description : Str
  columns : List (Str × (Str × Str))
  key_columns : List Str
deriving DecidableEq

/-- The `KnowledgeBase` registries.  Python dicts are insertion-ordered
association lists keyed by the same strings the source uses. -/
structure KnowledgeBase where
  templates : List (Str × TransactionTemplate)
  response_codes : List (Str × ResponseCode)
  field_definitions : List (Str × FieldDefinition)
  sql_tables : List (Str × SQLTable)
  learned_patterns : List (Str × Str)
  custom_scenarios : List (List (Str × Str))
deriving DecidableEq

/-- The default templates loaded by `KnowledgeBase._load_default_templates`,
in source order. -/
def defaultTemplates : List TransactionTemplate :=
  [{ id := sl "visa_purchase_0100",
     name := sl "fwd_visasig_direct_purchase_0100",
     description := sl "Visa Signature Direct Purchase",
     category := sl "purchase", card_network := sl "visa",
     message_type := sl "0100", processing_code := sl "000000",
     fields := [(sl "DMTI", sl "0100"), (sl "DE2", sl "4144779500060809"),
       (sl "DE3", sl "000000"), (sl "DE4", sl "000000000700"),
       (sl "DE11", sl "\x7bstan\x7d"), (sl "DE14", sl "2512"),
       (sl "DE18", sl "3535"), (sl "DE22", sl "900"),
       (sl "DE32", sl "59000000754"),
       (sl "DE35", sl "4144779500060809D251210112345129"),
       (sl "DE37", sl "\x7brrn\x7d"), (sl "DE41", sl "TERMID01"),
       (sl "DE42", sl "MERCHANT01"), (sl "DE43", sl "Test Merchant Location")],
     tags := [sl "visa", sl "purchase", sl "signature", sl "pos"] },
   { id := sl "mastercard_purchase_0100",
     name := sl "fwd_mastercard_purchase_0100",
     description := sl "MasterCard Purchase Authorization",
     category := sl "purchase", card_network := sl "mastercard",
     message_type := sl "0100", processing_code := sl "000000",
     fields := [(sl "DMTI", sl "0100"), (sl "DE2", sl "5500000000000004"),
       (sl "DE3", sl "000000"), (sl "DE4", sl "000000001000"),
       (sl "DE11", sl "\x7bstan\x7d"), (sl "DE14", sl "2512"),
       (sl "DE18", sl "5411"), (sl "DE22", sl "051"),
       (sl "DE37", sl "\x7brrn\x7d"), (sl "DE41", sl "TERMID02"),
       (sl "DE42", sl "MC_MERCHANT")],
     tags := [sl "mastercard", sl "purchase", sl "pos"] },
   { id := sl "visa_atm_withdrawal_0100",
     name := sl "fwd_visa_atm_withdrawal_0100",
     description := sl "Visa ATM Cash Withdrawal",
     category := sl "withdrawal", card_network := sl "visa",
     message_type := sl "0100", processing_code := sl "010000",
     fields := [(sl "DMTI", sl "0100"), (sl "DE2", sl "4111111111111111"),
       (sl "DE3", sl "010000"), (sl "DE4", sl "000000005000"),
       (sl "DE11", sl "\x7bstan\x7d"), (sl "DE14", sl "2512"),
       (sl "DE18", sl "6011"), (sl "DE22", sl "051"),
       (sl "DE37", sl "\x7brrn\x7d"), (sl "DE41", sl "ATM00001"),
       (sl "DE42", sl "BANK_ATM_01")],
     tags := [sl "visa", sl "atm", sl "withdrawal", sl "cash"] },
   { id := sl "visa_refund_0100",
     name := sl "fwd_visa_refund_0100",
     description := sl "Visa Refund/Credit",
     category := sl "refund", card_network := sl "visa",
     message_type := sl "0100", processing_code := sl "200000",
     fields := [(sl "DMTI", sl "0100"), (sl "DE2", sl "4144779500060809"),
       (sl "DE3", sl "200000"), (sl "DE4", sl "000000000500"),
       (sl "DE11", sl "\x7bstan\x7d"), (sl "DE14", sl "2512"),
       (sl "DE37", sl "\x7brrn\x7d"), (sl "DE41", sl "TERMID01"),
       (sl "DE42", sl "MERCHANT01")],
     tags := [sl "visa", sl "refund", sl "credit"] },
   { id := sl "visa_reversal_0400",
     name := sl "fwd_visa_reversal_0400",
     description := sl "Visa Reversal",
     category := sl "reversal", card_network := sl "visa",
     message_type := sl "0400", processing_code := sl "000000",
     fields := [(sl "DMTI", sl "0400"), (sl "DE2", sl "4144779500060809"),
       (sl "DE3", sl "000000"), (sl "DE4", sl "000000000700"),
       (sl "DE11", sl "\x7bstan\x7d"), (sl "DE14", sl "2512"),
       (sl "DE37", sl "\x7brrn\x7d"), (sl "DE41", sl "TERMID01"),
       (sl "DE90", sl "\x7boriginal_data\x7d")],
     tags := [sl "visa", sl "reversal", sl "void"] },
   { id := sl "visa_balance_inquiry_0100",
     name := sl "fwd_visa_balance_inquiry_0100",
     description := sl "Visa Balance Inquiry",
     category := sl "balance", card_network := sl "visa",
     message_type := sl "0100", processing_code := sl "310000",
     fields := [(sl "DMTI", sl "0100"), (sl "DE2", sl "4144779500060809"),
       (sl "DE3", sl "310000"), (sl "DE4", sl "000000000000"),
       (sl "DE11", sl "\x7bstan\x7d"), (sl "DE14", sl "2512"),
       (sl "DE37", sl "\x7brrn\x7d"), (sl "DE41", sl "ATM00001")],
     tags := [sl "visa", sl "balance", sl "inquiry", sl "atm"] },
   { id := sl "mastercard_cashback_0100",
     name := sl "fwd_mastercard_cashback_0100",
     description := sl "MasterCard Purchase with Cashback",
     category := sl "cashback", card_network := sl "mastercard",
     message_type := sl "0100", processing_code := sl "090000",
     fields := [(sl "DMTI", sl "0100"), (sl "DE2", sl "5500000000000004"),
       (sl "DE3", sl "090000"), (sl "DE4", sl "000000015000"),
       (sl "DE11", sl "\x7bstan\x7d"), (sl "DE14", sl "2512"),
       (sl "DE18", sl "5411"), (sl "DE37", sl "\x7brrn\x7d"),
       (sl "DE41", sl "TERMID02"), (sl "DE54", sl "000000005000")],
     tags := [sl "mastercard", sl "cashback", sl "purchase"] }]

/-- Helper for building `ResponseCode`s positionally, as the source does. -/
def mkRC (code message category trigger_field trigger_value : String) :
    ResponseCode :=
  { code := sl code, message := sl message, category := sl category,
    trigger_field := sl trigger_field, trigger_value := sl trigger_value }

/-- The default response codes loaded by
`KnowledgeBase._load_default_response_codes`, in source order. -/
def defaultResponseCodes : List ResponseCode :=
  [mkRC "00" "Approved" "approved" "" "",
   mkRC "01" "Refer to Issuer" "declined" "" "",
   mkRC "05" "Do Not Honor" "declined" "DE2" "4111111111111114",
   mkRC "14" "Invalid Card Number" "declined" "DE2" "1234567890123456",
   mkRC "51" "Insufficient Funds" "declined" "DE4" "999999999999",
   mkRC "54" "Expired Card" "declined" "DE14" "2001",
   mkRC "55" "Invalid PIN" "declined" "DE52" "",
   mkRC "61" "Exceeds Withdrawal Limit" "declined" "DE4" "500000000000",
   mkRC "62" "Restricted Card" "declined" "DE2" "4111111111111113",
   mkRC "65" "Activity Limit Exceeded" "declined" "" "",
   mkRC "75" "PIN Tries Exceeded" "declined" "" "",
   mkRC "91" "Issuer Unavailable" "error" "" "",
   mkRC "96" "System Malfunction" "error" "" ""]

/-- Helper for building `FieldDefinition`s positionally, as the source does. -/
def mkFD (id name description data_type : String) (length : Nat)
    (format exV : String) : FieldDefinition :=
  { id := sl id, name := sl name, description := sl description,
    data_type := sl data_type, length := length, format := sl format,
    exampleV := sl exV }

/-- The default field definitions loaded by
`KnowledgeBase._load_default_fields`, in source order. -/
def defaultFieldDefinitions : List FieldDefinition :=
  [mkFD "DMTI" "Message Type Indicator" "Message type" "numeric" 4 "" "0100",
   mkFD "DE2" "Primary Account Number" "Card number" "numeric" 19 "" "4144779500060809",
   mkFD "DE3" "Processing Code" "Transaction type code" "numeric" 6 "TTAABB" "000000",
   mkFD "DE4" "Transaction Amount" "Amount in cents" "numeric" 12 "" "000000000700",
   mkFD "DE7" "Transmission Date/Time" "Date and time" "numeric" 10 "MMDDhhmmss" "",
   mkFD "DE11" "System Trace Audit Number" "Unique trace number" "numeric" 6 "" "001234",
   mkFD "DE12" "Local Transaction Time" "Time of transaction" "numeric" 6 "hhmmss" "",
   mkFD "DE13" "Local Transaction Date" "Date of transaction" "numeric" 4 "MMDD" "",
   mkFD "DE14" "Expiration Date" "Card expiry" "numeric" 4 "YYMM" "2512",
   mkFD "DE18" "Merchant Category Code" "MCC" "numeric" 4 "" "5411",
   mkFD "DE22" "Point of Service Entry Mode" "How card was read" "numeric" 3 "" "051",
   mkFD "DE32" "Acquiring Institution ID" "Acquirer ID" "numeric" 11 "" "",
   mkFD "DE35" "Track 2 Data" "Magnetic stripe data" "alphanumeric" 37 "" "",
   mkFD "DE37" "Retrieval Reference Number" "RRN" "alphanumeric" 12 "" "024405001234",
   mkFD "DE38" "Authorization ID" "Approval code" "alphanumeric" 6 "" "ABC123",
   mkFD "DE39" "Response Code" "Transaction result" "numeric" 2 "" "00",
   mkFD "DE41" "Terminal ID" "Card acceptor terminal" "alphanumeric" 8 "" "TERMID01",
   mkFD "DE42" "Merchant ID" "Card acceptor ID" "alphanumeric" 15 "" "MERCHANT01",
   mkFD "DE43" "Merchant Name/Location" "Merchant details" "alphanumeric" 40 "" "",
   mkFD "DE49" "Currency Code" "Transaction currency" "numeric" 3 "" "840",
   mkFD "DE52" "PIN Data" "Encrypted PIN" "binary" 8 "" "",
   mkFD "DE54" "Additional Amounts" "Cashback, etc." "alphanumeric" 120 "" "",
   mkFD "DE55" "ICC Data" "EMV chip data" "binary" 999 "" ""]

/-- The `PPH_TRAN` table from `KnowledgeBase._load_default_sql_tables`. -/
def pphTranTable : SQLTable :=
  { name := sl "PPH_TRAN",
    description := sl "Primary Payment Hub Transaction Table",
    columns := [(sl "TRAN_ID", (sl "VARCHAR2(36)", sl "Transaction UUID")),
      (sl "MSG_TYPE", (sl "VARCHAR2(4)", sl "Message Type")),
      (sl "PAN", (sl "VARCHAR2(19)", sl "Masked PAN")),
      (sl "PROC_CODE", (sl "VARCHAR2(6)", sl "Processing Code")),
      (sl "TXN_AMT", (sl "NUMBER(15,2)", sl "Amount")),
      (sl "STAN", (sl "VARCHAR2(6)", sl "STAN")),
      (sl "RRN", (sl "VARCHAR2(12)", sl "RRN")),
      (sl "AUTH_CODE", (sl "VARCHAR2(6)", sl "Auth Code")),
      (sl "RESP_CODE", (sl "VARCHAR2(2)", sl "Response Code")),
      (sl "TERM_ID", (sl "VARCHAR2(8)", sl "Terminal ID")),
      (sl "MERCHANT_ID", (sl "VARCHAR2(15)", sl "Merchant ID")),
      (sl "TXN_STATUS", (sl "VARCHAR2(20)", sl "Status")),
      (sl "CREATED_DT", (sl "TIMESTAMP", sl "Created Date"))],
    key_columns := [sl "RRN", sl "STAN"] }

/-- The `PPDSVA` table from `KnowledgeBase._load_default_sql_tables`. -/
def ppdsvaTable : SQLTable :=
  { name := sl "PPDSVA",
    description := sl "Payment Processing Data Store - Value Added",
    columns := [(sl "SVA_ID", (sl "VARCHAR2(36)", sl "SVA Record ID")),
      (sl "TRAN_ID", (sl "VARCHAR2(36)", sl "Transaction ID")),
      (sl "RRN", (sl "VARCHAR2(12)", sl "RRN")),
      (sl "STAN", (sl "VARCHAR2(6)", sl "STAN")),
      (sl "NETWORK_ID", (sl "VARCHAR2(10)", sl "Network")),
      (sl "RISK_SCORE", (sl "NUMBER(5,2)", sl "Risk Score")),
      (sl "FRAUD_CHECK", (sl "VARCHAR2(10)", sl "Fraud Result")),
      (sl "HOST_RESP_CODE", (sl "VARCHAR2(4)", sl "Host Response")),
      (sl "PROCESS_TIME_MS", (sl "NUMBER(10)", sl "Process Time"))],
    key_columns := [sl "RRN", sl "STAN"] }

/-- A freshly constructed `KnowledgeBase()`: the default registries, keyed as
the loaders key them (`template.id`, `rc.code`, `field.id`, `table.name`). -/
def defaultKb : KnowledgeBase :=
  { templates := defaultTemplates.map (fun t => (t.id, t)),
    response_codes := defaultResponseCodes.map (fun rc => (rc.code, rc)),
    field_definitions := defaultFieldDefinitions.map (fun fd => (fd.id, fd)),
    sql_tables := [(sl "PPH_TRAN", pphTranTable), (sl "PPDSVA", ppdsvaTable)],
    learned_patterns := [],
    custom_scenarios := [] }

/-- Python exception classes raised by the modelled code paths.
`IndexError` and `KeyError` are subclasses of `LookupError`;
`OverflowError` (raised by `int()` on an infinite float) is not. -/
inductive PyErr where
  | indexError
  | keyError
  | overflowError
deriving DecidableEq

/-- Membership of a `PyErr` in Python's `LookupError` class. -/
def PyErr.isLookupError : PyErr → Bool
  | .indexError => true
  | .keyError => true
  | .overflowError => false

/-- `KnowledgeBase.export_to_json` emits exactly these four top-level keys;
the JSON round trip (`json.dumps`/`json.loads`, `asdict`/constructor) is
modelled as the identity on the underlying data. -/
structure ExportData where
  templates : List (Str × TransactionTemplate)
  response_codes : List (Str × ResponseCode)
  custom_scenarios : List (List (Str × Str))
  learned_patterns : List (Str × Str)
deriving DecidableEq

/-- `KnowledgeBase.export_to_json`. -/
def export_to_json (kb : KnowledgeBase) : ExportData :=
  { templates := kb.templates,
    response_codes := kb.response_codes,
    custom_scenarios := kb.custom_scenarios,
    learned_patterns := kb.learned_patterns }

/-- `KnowledgeBase.import_from_json`: dict-assign every imported template and
response code by key; extend `custom_scenarios`; `learned_patterns` is not
imported. -/
def import_from_json (kb : KnowledgeBase) (d : ExportData) : KnowledgeBase :=
  { kb with
    templates := d.templates.foldl (fun m p => assignA m p.1 p.2) kb.templates,
    response_codes :=
      d.response_codes.foldl (fun m p => assignA m p.1 p.2) kb.response_codes,
    custom_scenarios := kb.custom_scenarios ++ d.custom_scenarios }

-- ===========================================================================
-- FeatureAnalyzer: step normalization (`_learn_step`)
-- ===========================================================================

/-- Quote character test for the regex class `['\"]`. -/
def isQuoteC (c : Char) : Bool := c == squoteC || c == dquoteC

/-- The replacement text `"{value}"` of the first `re.sub` in `_learn_step`. -/
def valueTok : Str := sl "\x22\x7bvalue\x7d\x22"

/-- The inner text `{value}` of `valueTok`. -/
def innerValue : Str := sl "\x7bvalue\x7d"

/-- The replacement text `{number}` of the second `re.sub` in `_learn_step`. -/
def numberTok : Str := sl "\x7bnumber\x7d"

theorem dropWhile_len_le {α : Type} (p : α → Bool) (l : List α) :
    (l.dropWhile p).length ≤ l.length := by
  induction l with
  | nil => simp [List.dropWhile]
  | cons c t ih =>
      by_cases h : p c
      · simp [List.dropWhile, h]; omega
      · simp [List.dropWhile, h]

/-- `re.sub(r'[\'"][^"\']+[\'"]', '"{value}"', s)`: scanning left to right, a
match is a quote, a maximal non-empty run of non-quote characters, and a
closing quote (the character ending the run is necessarily a quote when one
exists, so the closing-quote test is implicit in the `dropWhile` shape). -/
def sub1 : List Char → List Char
  | [] => []
  | c :: rest =>
      if isQuoteC c then
        match h : rest.dropWhile (fun x => !isQuoteC x) with
        | [] => c :: sub1 rest
        | _d :: rest2 =>
            if (rest.takeWhile (fun x => !isQuoteC x)).isEmpty then
              c :: sub1 rest
            else valueTok ++ sub1 rest2
      else c :: sub1 rest
termination_by l => l.length
decreasing_by
  all_goals simp only [List.length_cons]
  all_goals try omega
  all_goals have hle := dropWhile_len_le (fun x => !isQuoteC x) rest
  all_goals rw [h] at hle
  all_goals simp only [List.length_cons] at hle
  all_goals omega

/-- `re.sub(r'\d{4,}', '{number}', s)`: a maximal digit run of length at
least 4 is replaced; shorter runs are copied (scanning position by position
inside a short run can never succeed, so copying the whole run is faithful). -/
def sub2 : List Char → List Char
  | [] => []
  | c :: rest =>
      if hdig : c.isDigit then
        (if 4 ≤ ((c :: rest).takeWhile Char.isDigit).length then numberTok
         else (c :: rest).takeWhile Char.isDigit)
          ++ sub2 ((c :: rest).dropWhile Char.isDigit)
      else c :: sub2 rest
termination_by l => l.length
decreasing_by
  all_goals simp only [List.length_cons]
  all_goals try omega
  all_goals have hle := dropWhile_len_le Char.isDigit rest
  all_goals simp only [List.dropWhile, hdig, if_true] at *
  all_goals omega

/-- The normalization performed by `FeatureAnalyzer._learn_step`: quoted
literals become `"{value}"`, then digit runs of length 4+ become `{number}`. -/
def normalizeStep (step : Str) : Str := sub2 (sub1 step)

/-- `FeatureAnalyzer._learn_step`: bump the frequency of the normalized step
in the `step_patterns` dict. -/
def learnStep (patterns : List (Str × Nat)) (step : Str) : List (Str × Nat) :=
  let nrm := normalizeStep step
  assignA patterns nrm (((lookupA patterns nrm).getD 0) + 1)

-- ===========================================================================
-- FeatureAnalyzer: line scanners used by `analyze`
-- ===========================================================================

/-- `re.match(r'^\* |^Given |^When |^Then |^And |^But ', s)`. -/
def isStepLine (s : Str) : Bool :=
  [sl "* ", sl "Given ", sl "When ", sl "Then ", sl "And ", sl "But "].any
    (fun p => leadsWith p s)

/-- Characters allowed after the first character of a tag
(`\w+[-\w]*` admits word characters and dashes after the leading one). -/
def isTagWordC (c : Char) : Bool := isWordC c || c == '-'

/-- Fuel-driven worker of `findTags`. -/
def findTagsF : Nat → Str → List Str
  | 0, _ => []
  | _ + 1, [] => []
  | fuel + 1, c :: t =>
      if c == '@' then
        match t with
        | d :: _ =>
            if isWordC d then
              t.takeWhile isTagWordC
                :: findTagsF fuel (t.drop (t.takeWhile isTagWordC).length)
            else findTagsF fuel t
        | [] => []
      else findTagsF fuel t

/-- `re.findall(r'@(\w+[-\w]*)', s)`. -/
def findTags (s : Str) : List Str := findTagsF s.length s

/-- `re.search(r'\* def (\w+)', s)`: first occurrence of the literal
`* def ` followed by at least one word character. -/
def varDefName : Str → Option Str
  | [] => none
  | c :: t =>
      if leadsWith (sl "* def ") (c :: t) then
        if (((c :: t).drop 6).takeWhile isWordC).isEmpty then varDefName t
        else some (((c :: t).drop 6).takeWhile isWordC)
      else varDefName t

/-- `re.search(r"templateName\s*=\s*['\"]([^'\"]+)['\"]", s)`. -/
def tmplUsed : Str → Option Str
  | [] => none
  | c :: t =>
      if leadsWith (sl "templateName") (c :: t) then
        match ((c :: t).drop 12).dropWhile isWsC with
        | e :: r2 =>
            if e == '=' then
              match r2.dropWhile isWsC with
              | q :: r4 =>
                  if isQuoteC q then
                    match r4.dropWhile (fun x => !isQuoteC x) with
                    | _ :: _ =>
                        if (r4.takeWhile (fun x => !isQuoteC x)).isEmpty then
                          tmplUsed t
                        else some (r4.takeWhile (fun x => !isQuoteC x))
                    | [] => tmplUsed t
                  else tmplUsed t
              | [] => tmplUsed t
            else tmplUsed t
        | [] => tmplUsed t
      else tmplUsed t

/-- `re.search(r"DE39['\"]?\s*==\s*['\"]?(\d{2})['\"]?", s)`; the greedy
optional quotes are deterministic here because a failed continuation cannot
be rescued by backtracking them (a quote never matches `\s`/`\d`). -/
def rcUsed : Str → Option Str
  | [] => none
  | c :: t =>
      if leadsWith (sl "DE39") (c :: t) then
        let r1 := (c :: t).drop 4
        let r1b := match r1 with
          | q :: tq => if isQuoteC q then tq else r1
          | [] => r1
        let r2 := r1b.dropWhile isWsC
        if leadsWith (sl "==") r2 then
          let r3 := (r2.drop 2).dropWhile isWsC
          let r3b := match r3 with
            | q :: tq => if isQuoteC q then tq else r3
            | [] => r3
          match r3b with
          | a :: b :: _ =>
              if a.isDigit && b.isDigit then some [a, b] else rcUsed t
          | _ => rcUsed t
        else rcUsed t
      else rcUsed t

-- ===========================================================================
-- FeatureAnalyzer.analyze
-- ===========================================================================

/-- An entry of `current_content`: plain buffered lines are strings, a
`Scenario:` header is buffered as the `(stripped, current_tags)` tuple. -/
inductive ContentItem where
  | text (s : Str)
  | header (s : Str) (tags : List Str)
deriving DecidableEq

/-- The string component of a content item. -/
def contentText : ContentItem → Str
  | .text s => s
  | .header s _ => s

/-- An element of `analysis["scenarios"]`. -/
structure ScenarioEntry where
  content : List ContentItem
  tags : List Str
deriving DecidableEq

/-- The `analysis` dict built by `FeatureAnalyzer.analyze` (`var_names`
models the `variables` key). -/
structure Analysis where
  filename : Str
  feature_name : Str
  tags : List Str
  backgrounds : List Str
  scenarios : List ScenarioEntry
  steps : List Str
  var_names : List Str
  sql_queries : List Str
  calls : List Str
  templates_used : List Str
  response_codes_used : List Str
deriving DecidableEq

/-- The loop state of `FeatureAnalyzer.analyze`. -/
structure ScanState where
  analysis : Analysis
  current_section : Option Str
  current_content : List ContentItem
  current_tags : List Str
deriving DecidableEq

/-- The fresh `analysis` dict at the top of `analyze`. -/
def emptyAnalysis (filename : Str) : Analysis :=
  { filename := filename, feature_name := [], tags := [], backgrounds := [],
    scenarios := [], steps := [], var_names := [], sql_queries := [],
    calls := [], templates_used := [], response_codes_used := [] }

/-- One iteration of the `for line in lines` loop of `analyze`.  The
`scenario_name` computed by the source is unused there and is not modelled;
the `_learn_step` side effect touches only the analyzer's `step_patterns`
dict (modelled separately by `learnStep`), not the returned analysis. -/
def processLine (st : ScanState) (line : Str) : ScanState :=
  let stripped := strip line
  let a0 :=
    if leadsWith (sl "Feature:") stripped then
      { st.analysis with
        feature_name := strip (replaceAllS (sl "Feature:") [] stripped) }
    else st.analysis
  let lineTags := findTags stripped
  let a1 :=
    if leadsWith (sl "@") stripped then { a0 with tags := a0.tags ++ lineTags }
    else a0
  let ctags1 :=
    if leadsWith (sl "@") stripped then lineTags else st.current_tags
  if leadsWith (sl "Background:") stripped then
    { analysis := a1, current_section := some (sl "background"),
      current_content := [], current_tags := ctags1 }
  else if leadsWith (sl "Scenario:") stripped ||
      leadsWith (sl "Scenario Outline:") stripped then
    let a2 :=
      if st.current_section = some (sl "background") &&
          !st.current_content.isEmpty then
        { a1 with backgrounds := a1.backgrounds ++
            [joinSep (sl "\n") (st.current_content.map contentText)] }
      else a1
    { analysis := a2, current_section := some (sl "scenario"),
      current_content := [ContentItem.header stripped ctags1],
      current_tags := [] }
  else
    match st.current_section with
    | none =>
        { analysis := a1, current_section := none,
          current_content := st.current_content, current_tags := ctags1 }
    | some sect =>
        let content2 :=
          if sect = sl "background" then
            st.current_content ++ [ContentItem.text stripped]
          else st.current_content
        let a3 :=
          if isStepLine stripped then { a1 with steps := a1.steps ++ [stripped] }
          else a1
        let a4 := match varDefName stripped with
          | some v => { a3 with var_names := a3.var_names ++ [v] }
          | none => a3
        let a5 :=
          if hasSub (sl "SELECT") (uc stripped) ||
              hasSub (sl "query") (lc stripped) then
            { a4 with sql_queries := a4.sql_queries ++ [stripped] }
          else a4
        let a6 :=
          if hasSub (sl "call read") stripped then
            { a5 with calls := a5.calls ++ [stripped] }
          else a5
        let a7 := match tmplUsed stripped with
          | some tn => { a6 with templates_used := a6.templates_used ++ [tn] }
          | none => a6
        let a8 := match rcUsed stripped with
          | some rc =>
              { a7 with response_codes_used := a7.response_codes_used ++ [rc] }
          | none => a7
        { analysis := a8, current_section := some sect,
          current_content := content2, current_tags := ctags1 }

/-- `FeatureAnalyzer.analyze`: run the line loop, then store the last open
scenario section.  (The appends to `analyzed_files` and the
`_update_knowledge_base` call mutate analyzer and kb state outside the returned
analysis and are not part of this model.) -/
def analyze (content : Str) (filename : Str) : Analysis :=
  let st0 : ScanState :=
    { analysis := emptyAnalysis filename, current_section := none,
      current_content := [], current_tags := [] }
  let st := (splitOnNl content).foldl processLine st0
  if st.current_section = some (sl "scenario") &&
      !st.current_content.isEmpty then
    { st.analysis with scenarios := st.analysis.scenarios ++
        [{ content := st.current_content, tags := st.current_tags }] }
  else st.analysis

-- ===========================================================================
-- TestGenerator: intent parsing
-- ===========================================================================

/-- The options dict passed to `TestGenerator.generate`
(`options.get(..., True)` defaults). -/
structure Options where
  include_sql : Bool := true
  use_common_calls : Bool := true
  include_docs : Bool := true
deriving DecidableEq

/-- The `intent` dict built by `TestGenerator._parse_prompt` and then
augmented with the option flags by `generate`.  The `custom_fields` entry is
initialized to `{}` and never read afterwards, so it is not modelled. -/
structure Intent where
  test_type : Str
  transaction_type : Str
  card_network : Str
  expected_result : Str
  decline_reason : Option ResponseCode
  amount : Option Str
  tags : List Str
  scenario_count : Nat
  include_sql : Bool
  use_common_calls : Bool
  include_docs : Bool
deriving DecidableEq

/-- Worker for the `(,\d{3})*` groups of the amount regex: consume
comma-plus-three-digit groups, accumulating their digits. -/
def commaGroupsF : Nat → Str → Str → Str × Str
  | 0, acc, l => (acc, l)
  | f + 1, acc, l =>
      match l with
      | c :: a :: b :: d :: t =>
          if c == ',' && a.isDigit && b.isDigit && d.isDigit then
            commaGroupsF f (acc ++ [a, b, d]) t
          else (acc, l)
      | _ => (acc, l)

/-- The optional `(\.\d{2})?` fraction of the amount regex. -/
def fracOf : Str → Str
  | p :: a :: b :: _ => if p == '.' && a.isDigit && b.isDigit then [a, b] else []
  | _ => []

/-- Parse the amount token starting at a digit: `\d+(?:,\d{3})*(?:\.\d{2})?`,
returning the whole-part digits (commas dropped, as `replace(',','')` does)
and the fraction digits. -/
def amountTokenAt (l : Str) : Str × Str :=
  let d1 := l.takeWhile Char.isDigit
  let r1 := l.drop d1.length
  let (gd, r2) := commaGroupsF r1.length d1 r1
  (gd, fracOf r2)

/-- `re.search(r'\$?(\d+(?:,\d{3})*(?:\.\d{2})?)', prompt)`: the leftmost
match begins at the first digit (a `$` prefix contributes nothing to the
captured group). -/
def findAmountDigits : Str → Option (Str × Str)
  | [] => none
  | c :: t =>
      if c.isDigit then some (amountTokenAt (c :: t)) else findAmountDigits t

/-- Round the nonnegative rational `num / den` (`0 < den`) to the nearest
integer, ties to even: the rounding applied at every IEEE-754 binary64
rounding step below. -/
def roundNE (num den : Nat) : Nat :=
  let q := num / den
  let r := num % den
  if 2 * r < den then q
  else if den < 2 * r then q + 1
  else if q % 2 = 0 then q else q + 1

/-- `expSearch fuel p n acc`: starting from `p` with `p ≤ n`, the number of
doublings of `p` that stay at most `n` (plus `acc`); with `p = d`, `acc = 0`
and enough fuel this is the largest `k` with `d * 2 ^ k ≤ n`. -/
def expSearch : Nat → Nat → Nat → Nat → Nat
  | 0, _, _, acc => acc
  | f + 1, p, n, acc =>
      if p * 2 ≤ n then expSearch f (p * 2) n (acc + 1) else acc

/-- Correct rounding of the nonnegative rational `n / d` (`0 < d`) to a
binary64 float: `none` is overflow to `inf` (exact value at least
`2 ^ 1024 - 2 ^ 970`, the round-to-nearest-even boundary above the largest
finite double), otherwise `some (s, e)` denotes `s * 2 ^ e` with `s < 2 ^ 53`
(`s = 0` for zero).  Subnormals never arise here: every value rounded is `0`
or at least `1 / 100`.  `fuel` must exceed `log2 (n / d) + 61`; callers
derive it from the token length. -/
def flRat (fuel n d : Nat) : Option (Nat × Int) :=
  let e : Int := (expSearch fuel d (n * 2 ^ 60) 0 : Int) - 60
  let s :=
    if 0 ≤ 52 - e then roundNE (n * 2 ^ (52 - e).toNat) d
    else roundNE n (d * 2 ^ (e - 52).toNat)
  let se : Nat × Int := if s = 2 ^ 53 then (2 ^ 52, e + 1) else (s, e)
  if 1023 < se.2 then none else some (se.1, se.2 - 52)

/-- `float(tok)` for the matched amount token with whole digits `whole` and
fraction digits `frac` (empty or exactly two): CPython parses decimal
literals with correct rounding to binary64. -/
def floatTok (whole frac : Str) : Option (Nat × Int) :=
  let d := if frac.isEmpty then 1 else 100
  flRat (4 * whole.length + 200) (digitsToNat whole * d + digitsToNat frac) d

/-- `float * 100` in binary64: the exact product, then one correct rounding
(`inf * 100 = inf`).  The input is a double, so its magnitude is below
`2 ^ 1024` and the fixed fuel covers every case. -/
def mulFl100 : Option (Nat × Int) → Option (Nat × Int)
  | none => none
  | some (s, e) =>
      if 0 ≤ e then flRat 1200 (s * 100 * 2 ^ e.toNat) 1
      else flRat 1200 (s * 100) (2 ^ (-e).toNat)

/-- `int(x)` on a nonnegative binary64 `x`: truncation toward zero, raising
`OverflowError` on `inf`. -/
def intOfFl : Option (Nat × Int) → Except PyErr Nat
  | none => Except.error PyErr.overflowError
  | some (s, e) =>
      Except.ok (if 0 ≤ e then s * 2 ^ e.toNat else s / 2 ^ (-e).toNat)

/-- `str(int(float(tok) * 100)).zfill(12)` through the binary64 model:
`OverflowError` exactly when `float(tok) * 100` is infinite (tokens of
roughly 307 digits and beyond), and the truncated rounded product otherwise
(so e.g. token `0.29` yields cents `28`, as the source does). -/
def centsString (whole frac : Str) : Except PyErr Str :=
  match intOfFl (mulFl100 (floatTok whole frac)) with
  | Except.error e => Except.error e
  | Except.ok n => Except.ok (zfillS 12 (sl (Nat.repr n)))

/-- The amount extraction of `_parse_prompt`, including its `OverflowError`
path; `ok none` when the prompt has no digits. -/
def findAmountE (prompt : Str) : Except PyErr (Option Str) :=
  match findAmountDigits prompt with
  | none => Except.ok none
  | some p =>
      match centsString p.1 p.2 with
      | Except.error e => Except.error e
      | Except.ok s => Except.ok (some s)

/-- The amount `_parse_prompt` binds on the prompts where it returns (the
conversion does not overflow). -/
def findAmount (prompt : Str) : Option Str :=
  match findAmountE prompt with
  | Except.ok a => a
  | Except.error _ => none

/-- The `transaction_keywords` table of `_parse_prompt`, in source order. -/
def transactionKeywords : List (Str × List Str) :=
  [(sl "withdrawal", [sl "withdraw", sl "atm", sl "cash out"]),
   (sl "refund", [sl "refund", sl "credit", sl "return"]),
   (sl "reversal", [sl "reversal", sl "void", sl "cancel"]),
   (sl "balance", [sl "balance", sl "inquiry"]),
   (sl "cashback", [sl "cashback", sl "cash back"]),
   (sl "purchase", [sl "purchase", sl "buy", sl "payment", sl "sale"])]

/-- The `network_keywords` table of `_parse_prompt`, in source order. -/
def networkKeywords : List (Str × List Str) :=
  [(sl "mastercard", [sl "mastercard", sl "mc", sl "master card"]),
   (sl "amex", [sl "amex", sl "american express"]),
   (sl "discover", [sl "discover"]),
   (sl "visa", [sl "visa"])]

/-- The `for ...: if any(kw in prompt): bind; break` idiom over an ordered
keyword table. -/
def firstKeyMatch (table : List (Str × List Str)) (pl : Str) (dflt : Str) :
    Str :=
  match table.find? (fun e => e.2.any (fun kw => hasSub kw pl)) with
  | some e => e.1
  | none => dflt

/-- The decline-reason test of `_parse_prompt`: the full lowered message, or
any of its whitespace-split words, occurs in the lowered prompt. -/
def rcMatches (pl : Str) (rc : ResponseCode) : Bool :=
  hasSub (lc rc.message) pl ||
    (wordsOf (lc rc.message)).any (fun w => hasSub w pl)

/-- `TestGenerator._parse_prompt`: the intent returned on the prompts where
the amount conversion does not raise (see `parsePromptE` for the exception
path). -/
def parsePrompt (kb : KnowledgeBase) (prompt : Str) : Intent :=
  let pl := lc prompt
  let neg :=
    [sl "negative", sl "decline", sl "reject", sl "fail"].any
      (fun w => hasSub w pl)
  let isE2e := hasSub (sl "e2e") pl || hasSub (sl "end-to-end") pl
  let isRegr := hasSub (sl "regression") pl
  let isSmoke := hasSub (sl "smoke") pl
  let declOpt := kb.response_codes.find?
    (fun p => rcMatches pl p.2 && p.2.category == sl "declined")
  { test_type :=
      if isRegr then sl "regression"
      else if isE2e then sl "e2e"
      else if neg then sl "negative"
      else sl "positive",
    transaction_type := firstKeyMatch transactionKeywords pl (sl "purchase"),
    card_network := firstKeyMatch networkKeywords pl (sl "visa"),
    expected_result :=
      match declOpt with
      | some _ => sl "declined"
      | none => if neg then sl "declined" else sl "approved",
    decline_reason := declOpt.map Prod.snd,
    amount := findAmount prompt,
    tags := (if isE2e then [sl "e2e"] else []) ++
      (if isRegr then [sl "regression"] else []) ++
      (if isSmoke then [sl "smoke"] else []),
    scenario_count :=
      if [sl "multiple", sl "several", sl "batch", sl "data-driven"].any
          (fun w => hasSub w pl) then 3
      else 1,
    include_sql := true, use_common_calls := true, include_docs := true }

/-- `TestGenerator._parse_prompt` with its exception path: the amount
conversion runs inside `_parse_prompt`, so its `OverflowError` escapes
before any intent is returned. -/
def parsePromptE (kb : KnowledgeBase) (prompt : Str) : Except PyErr Intent :=
  match findAmountE prompt with
  | Except.error e => Except.error e
  | Except.ok _ => Except.ok (parsePrompt kb prompt)

-- ===========================================================================
-- TestGenerator: template selection
-- ===========================================================================

/-- The score loop body of `TestGenerator._find_template`. -/
def scoreTemplate (t : TransactionTemplate) (it : Intent) : Nat :=
  (if t.category = it.transaction_type then 10 else 0) +
  (if t.card_network = it.card_network then 5 else 0) +
  2 * (it.tags.filter (fun tg => t.tags.contains tg)).length

/-- `max(scores, key=scores.get)` over the remaining `(key, score)` pairs:
keep the current best, replacing it only on a strictly larger score, so the
first key attaining the maximum wins. -/
def goMax : Str × Nat → List (Str × Nat) → Str
  | b, [] => b.1
  | b, (k, v) :: t => if b.2 < v then goMax (k, v) t else goMax b t

/-- `TestGenerator._find_template`.  With a non-empty registry the best-id
lookup is returned; with an empty registry `list(values())[0]` raises
`IndexError` (the dead `KeyError` branch mirrors the dict subscript). -/
def findTemplate (kb : KnowledgeBase) (it : Intent) :
    Except PyErr TransactionTemplate :=
  match kb.templates.map (fun p => (p.1, scoreTemplate p.2 it)) with
  | [] =>
      match kb.templates with
      | [] => Except.error PyErr.indexError
      | p :: _ => Except.ok p.2
  | s :: rest =>
      match lookupA kb.templates (goMax s rest) with
      | some t => Except.ok t
      | none => Except.error PyErr.keyError

-- ===========================================================================
-- TestGenerator: feature synthesis
-- ===========================================================================

/-- Python truthiness of the optional amount string. -/
def truthyOptStr : Option Str → Bool
  | some s => !s.isEmpty
  | none => false

/-- The expected response code, expected status and trigger overrides
computed at the top of `TestGenerator._generate_scenario`. -/
def expectedTriple (it : Intent) : Str × Str × List (Str × Str) :=
  if it.expected_result = sl "approved" then (sl "00", sl "COMPLETED", [])
  else
    match it.decline_reason with
    | some rc =>
        (rc.code, sl "DECLINED",
          if !rc.trigger_field.isEmpty && !rc.trigger_value.isEmpty then
            [(rc.trigger_field, rc.trigger_value)]
          else [])
    | none => (sl "05", sl "DECLINED", [])

/-- `TestGenerator._build_tags`: a Python set rendered via `sorted`. -/
def buildTags (it : Intent) (tm : TransactionTemplate) : Str :=
  let tags := it.tags ++ [tm.card_network, tm.category] ++
    [if it.expected_result = sl "approved" then sl "positive"
     else sl "negative"] ++
    (if it.include_sql then [sl "sql"] else [])
  sl "@" ++ joinSep (sl " @") (sortStr (dedupKF tags))

/-- `TestGenerator._build_feature_name`. -/
def buildFeatureName (it : Intent) (tm : TransactionTemplate) : Str :=
  let parts := [titleS tm.card_network, titleS tm.category] ++
    (if it.expected_result = sl "declined" && it.decline_reason.isSome then
       [sl "- " ++ ((it.decline_reason.map ResponseCode.message).getD [])]
     else if it.expected_result = sl "approved" then [sl "- Approved"]
     else []) ++
    (if it.include_sql then [sl "with SQL Validation"] else [])
  joinSep (sl " ") parts

/-- The per-table lookup-function block in
`TestGenerator._generate_background`. -/
def sqlQueryFnLines (tname : Str) (tbl : SQLTable) : List Str :=
  let key_cols := joinSep (sl " AND ")
    (tbl.key_columns.map
      (fun c => c ++ sl "='\x22 + " ++ lc c ++ sl " + \x22'"))
  [sl "    # Query " ++ tname,
   sl "    * def query" ++ replaceAllS (sl "_") [] tname ++ sl " = ",
   sl "    \x22\x22\x22",
   sl "    function(" ++ joinSep (sl ", ") (tbl.key_columns.map lc) ++
     sl ") \x7b",
   sl "      var DbUtils = Java.type('com.intuit.karate.demo.util.DbUtils');",
   sl "      return DbUtils.query(\x22SELECT * FROM " ++ tname ++
     sl " WHERE " ++ key_cols ++ sl "\x22);",
   sl "    \x7d",
   sl "    \x22\x22\x22",
   sl ""]

/-- The line list of `TestGenerator._generate_background`. -/
def backgroundLines (kb : KnowledgeBase) (it : Intent)
    (tm : TransactionTemplate) : List Str :=
  [sl "  Background:",
   sl "    * url cosmosUrl",
   sl "    * def templateName = '" ++ tm.name ++ sl "'",
   sl "",
   sl "    # Dynamic generators",
   sl "    * def generateSTAN = function()\x7b return Math.floor(Math.random() * 999999).toString().padStart(6, '0') \x7d",
   sl "    * def generateRRN = function()\x7b return Math.floor(Math.random() * 999999999999).toString().padStart(12, '0') \x7d",
   sl ""] ++
  (if it.include_sql then
     (kb.sql_tables.map (fun p => sqlQueryFnLines p.1 p.2)).flatten
   else []) ++
  [sl "    * configure headers = \x7b 'Content-Type': 'application/json' \x7d",
   sl ""]

/-- `TestGenerator._generate_background`. -/
def generateBackground (kb : KnowledgeBase) (it : Intent)
    (tm : TransactionTemplate) : Str :=
  joinSep (sl "\n") (backgroundLines kb it tm)

/-- The per-table validation block in `TestGenerator._generate_scenario`. -/
def sqlBlockLines (tname : Str) (exp_rc exp_status : Str) : List Str :=
  [sl "    # Validate " ++ tname,
   sl "    * def " ++ lc tname ++ sl " = query" ++
     replaceAllS (sl "_") [] tname ++ sl "(rrn, stan)",
   sl "    * match " ++ lc tname ++ sl " != null"] ++
  (if tname = sl "PPH_TRAN" then
     [sl "    * match " ++ lc tname ++ sl ".TXN_STATUS == '" ++ exp_status ++
        sl "'",
      sl "    * match " ++ lc tname ++ sl ".RESP_CODE == '" ++ exp_rc ++
        sl "'"]
   else if tname = sl "PPDSVA" then
     [sl "    * match " ++ lc tname ++ sl ".HOST_RESP_CODE == '" ++ exp_rc ++
        sl "'",
      sl "    * match " ++ lc tname ++ sl ".FRAUD_CHECK == 'PASS'"]
   else []) ++
  [sl ""]

/-- The line list of `TestGenerator._generate_scenario`. -/
def scenarioLines (kb : KnowledgeBase) (it : Intent)
    (tm : TransactionTemplate) : List Str :=
  let e := expectedTriple it
  let exp_rc := e.1
  let exp_status := e.2.1
  let overrides :=
    if truthyOptStr it.amount then
      assignA e.2.2 (sl "DE4") (it.amount.getD [])
    else e.2.2
  let scenario_tags := [sl "@" ++ it.test_type] ++
    (if it.include_sql then [sl "@sql"] else [])
  let name :=
    if exp_rc = sl "00" then titleS tm.category ++ sl " - Approved"
    else titleS tm.category ++ sl " - " ++
      (match it.decline_reason with
       | some rc => rc.message
       | none => sl "Declined")
  [sl "  " ++ joinSep (sl " ") scenario_tags,
   sl "  Scenario: " ++ name,
   sl "",
   sl "    # Generate unique identifiers",
   sl "    * def stan = generateSTAN()",
   sl "    * def rrn = generateRRN()",
   sl "",
   sl "    * def overrides = \x7b " ++
     joinSep (sl ", ")
       ([sl "DE11: '#(stan)'", sl "DE37: '#(rrn)'"] ++
         overrides.map (fun p => p.1 ++ sl ": '" ++ p.2 ++ sl "'")) ++
     sl " \x7d",
   sl ""] ++
  (if it.use_common_calls then
     [sl "    # Send using common scenario",
      sl "    * def result = call read('common_scenarios.feature@common_send_0100') \x7b templateName: '#(templateName)', overrides: '#(overrides)' \x7d",
      sl "    * def response = result.cosmosResponse"]
   else
     [sl "    # Send request",
      sl "    Given path '/template'",
      sl "    And param id = templateName",
      sl "    And param type = 'MessageTemplate'",
      sl "    And request \x7b templateId: '#(templateName)', overrides: '#(overrides)' \x7d",
      sl "    When method post",
      sl "    Then status 200",
      sl "    * def response = response"]) ++
  [sl "",
   sl "    # Validate COSMOS response",
   sl "    * match response.DE39 == '" ++ exp_rc ++ sl "'"] ++
  (if exp_rc = sl "00" then [sl "    * match response.DE38 == '#notnull'"]
   else []) ++
  [sl ""] ++
  (if it.include_sql then
     (kb.sql_tables.map (fun p => sqlBlockLines p.1 exp_rc exp_status)).flatten
   else [])

/-- `TestGenerator._generate_scenario`. -/
def generateScenario (kb : KnowledgeBase) (it : Intent)
    (tm : TransactionTemplate) : Str :=
  joinSep (sl "\n") (scenarioLines kb it tm)

/-- The line list of `TestGenerator._generate_data_driven_scenario`. -/
def dataDrivenLines (it : Intent) (tm : TransactionTemplate) : List Str :=
  [sl "  @regression @data-driven",
   sl "  Scenario Outline: " ++ titleS tm.category ++ sl " - <description>",
   sl "",
   sl "    * def stan = generateSTAN()",
   sl "    * def rrn = generateRRN()",
   sl "    * def overrides = \x7b DE11: '#(stan)', DE37: '#(rrn)', DE2: '<pan>', DE4: '<amount>' \x7d",
   sl "",
   sl "    Given path '/template'",
   sl "    And param id = templateName",
   sl "    And request \x7b templateId: '#(templateName)', overrides: '#(overrides)' \x7d",
   sl "    When method post",
   sl "    Then status 200",
   sl "    And match response.DE39 == '<expectedRC>'",
   sl ""] ++
  (if it.include_sql then
     [sl "    * def pph = queryPPHTRAN(rrn, stan)",
      sl "    * match pph.TXN_STATUS == '<expectedStatus>'",
      sl ""]
   else []) ++
  [sl "    Examples:",
   sl "      | description         | pan                | amount       | expectedRC | expectedStatus |",
   sl "      | Approved Low        | 4144779500060809   | 000000000100 | 00         | COMPLETED      |",
   sl "      | Approved Medium     | 4144779500060809   | 000000010000 | 00         | COMPLETED      |",
   sl "      | Insufficient Funds  | 4111111111111112   | 999999999999 | 51         | DECLINED       |",
   sl "      | Expired Card        | 4144779500060809   | 000000000100 | 54         | DECLINED       |",
   sl ""]

/-- `TestGenerator._generate_data_driven_scenario`. -/
def generateDataDriven (it : Intent) (tm : TransactionTemplate) : Str :=
  joinSep (sl "\n") (dataDrivenLines it tm)

/-- The line list of `TestGenerator._generate_feature`; `now` stands for the
`datetime.now().strftime(...)` text. -/
def featureLines (kb : KnowledgeBase) (it : Intent)
    (tm : TransactionTemplate) (now : Str) : List Str :=
  [buildTags it tm,
   sl "Feature: " ++ buildFeatureName it tm,
   sl ""] ++
  (if it.include_docs then
     [sl "  # Generated: " ++ now,
      sl "  # Template: " ++ tm.name,
      sl "  # Category: " ++ tm.category,
      sl "  # Network: " ++ tm.card_network,
      sl ""]
   else []) ++
  [generateBackground kb it tm] ++
  (if 1 < it.scenario_count then [generateDataDriven it tm]
   else [generateScenario kb it tm])

/-- `TestGenerator._generate_feature`. -/
def generateFeature (kb : KnowledgeBase) (it : Intent)
    (tm : TransactionTemplate) (now : Str) : Str :=
  joinSep (sl "\n") (featureLines kb it tm now)

/-- `TestGenerator.generate`: parse the prompt (propagating the amount
conversion's `OverflowError`), apply the option flags, find the best
template and synthesize the feature text. -/
def generate (kb : KnowledgeBase) (prompt : Str) (opts : Options)
    (now : Str) : Except PyErr Str :=
  match parsePromptE kb prompt with
  | Except.error e => Except.error e
  | Except.ok it0 =>
    let it := { it0 with
      include_sql := opts.include_sql
      use_common_calls := opts.use_common_calls
      include_docs := opts.include_docs }
    match findTemplate kb it with
    | Except.error e => Except.error e
    | Except.ok tm => Except.ok (generateFeature kb it tm now)

deriving instance DecidableEq for Except

/-- The text of a successful synthesis (empty on error); used to state
concrete facts about `generate` results. -/
def exceptText (e : Except PyErr Str) : Str :=
  match e with
  | Except.ok t => t
  | Except.error _ => []

/-- A needle occurring in a member line occurs in the joined text. -/
theorem hasSub_line_of_mem (n x : Str) (L : List Str) (hx : x ∈ L)
    (hn : hasSub n x = true) : hasSub n (joinSep (sl "\n") L) = true :=
  hasSub_trans hn (hasSub_joinSep (sl "\n") L x hx)

-- ===========================================================================
-- C2: scenario finalization in FeatureAnalyzer.analyze
-- ===========================================================================

/-- Stated from the claim: the number of `Scenario:`/`Scenario Outline:`
headers in a document. -/
def countScenarioHeaders (content : Str) : Nat :=
  ((splitOnNl content).filter (fun l =>
    leadsWith (sl "Scenario:") (strip l) ||
    leadsWith (sl "Scenario Outline:") (strip l))).length

/-- C2: a `Scenario:` header reached while a scenario section is open does
NOT finalize the buffered scenario — the buffer is overwritten — so a
document with two `Scenario:` headers yields one scenario record, not two:
the code diverges from the claimed per-header finalization. -/
theorem c2_scenario_loss :
    (analyze (sl "Scenario: A\nScenario: B") (sl "f")).scenarios.length = 1 ∧
    countScenarioHeaders (sl "Scenario: A\nScenario: B") = 2 := by
  decide

-- ===========================================================================
-- C5: synthesis with an empty template registry
-- ===========================================================================

/-- A prompt whose amount token has 400 digits: `float(tok)` is `inf`, so
`int(float(tok) * 100)` raises `OverflowError` inside `_parse_prompt`. -/
def c5HugePrompt : Str := sl "pay " ++ List.replicate 400 '1'

/-- C5 counterexample: with no templates at all, a synthesis call whose
prompt carries a 400-digit amount token aborts with `OverflowError` — raised
by the amount conversion before `_find_template` runs — which is not a
`LookupError`-class exception; so not every template-less synthesis call
raises a `LookupError`-class exception. -/
theorem c5_counterexample :
    generate { defaultKb with templates := [] } c5HugePrompt {} [] =
      Except.error PyErr.overflowError ∧
    PyErr.overflowError.isLookupError = false := by
  constructor
  · decide
  · rfl

/-- C5 amended: with no templates at all, every synthesis call aborts and
never returns text — with `IndexError` (a `LookupError` subclass, raised by
`list(self.kb.templates.values())[0]`) whenever the prompt's amount
conversion does not overflow, and with the conversion's `OverflowError`
otherwise. -/
theorem c5_amended (kb : KnowledgeBase) (hkb : kb.templates = [])
    (prompt : Str) (opts : Options) (now : Str) :
    ((∃ a, findAmountE prompt = Except.ok a) →
      generate kb prompt opts now = Except.error PyErr.indexError ∧
      PyErr.indexError.isLookupError = true) ∧
    (∀ e, findAmountE prompt = Except.error e →
      generate kb prompt opts now = Except.error e) ∧
    ∀ t, generate kb prompt opts now ≠ Except.ok t := by
  have herr : ∀ e, findAmountE prompt = Except.error e →
      generate kb prompt opts now = Except.error e := by
    intro e he
    simp [generate, parsePromptE, he]
  have hok : ∀ a, findAmountE prompt = Except.ok a →
      generate kb prompt opts now = Except.error PyErr.indexError := by
    intro a ha
    simp [generate, parsePromptE, ha, findTemplate, hkb]
  refine ⟨fun h => ⟨hok h.choose h.choose_spec, rfl⟩, herr, fun t hT => ?_⟩
  cases hfa : findAmountE prompt with
  | error e => rw [herr e hfa] at hT; exact Except.noConfusion hT
  | ok a => rw [hok a hfa] at hT; exact Except.noConfusion hT

/-- Witness for C5's amended statement: a concrete empty-template knowledge
base with a digit-free prompt, whose amount conversion trivially succeeds. -/
theorem c5_witness :
    generate { defaultKb with templates := [] } (sl "any prompt") {} [] =
      Except.error PyErr.indexError ∧
    PyErr.indexError.isLookupError = true :=
  (c5_amended { defaultKb with templates := [] } rfl
    (sl "any prompt") {} []).1 ⟨none, by decide⟩

-- ===========================================================================
-- Shared lemmas about synthesized scenario text
-- ===========================================================================

theorem mem_scenarioLines_de39_approved (kb : KnowledgeBase) (it : Intent)
    (tm : TransactionTemplate) (happ : it.expected_result = sl "approved") :
    (sl "    * match response.DE39 == '00'") ∈ scenarioLines kb it tm := by
  have htrip : expectedTriple it = (sl "00", sl "COMPLETED", []) := by
    simp [expectedTriple, happ]
  simp only [scenarioLines, htrip]
  exact List.mem_append_left _ (List.mem_append_left _ (List.mem_append_left _
    (List.mem_append_right _ (by decide))))

theorem mem_scenarioLines_de38_approved (kb : KnowledgeBase) (it : Intent)
    (tm : TransactionTemplate) (happ : it.expected_result = sl "approved") :
    (sl "    * match response.DE38 == '#notnull'") ∈ scenarioLines kb it tm := by
  have htrip : expectedTriple it = (sl "00", sl "COMPLETED", []) := by
    simp [expectedTriple, happ]
  simp only [scenarioLines, htrip]
  exact List.mem_append_left _ (List.mem_append_left _
    (List.mem_append_right _ (by decide)))

/-- A line of the single-scenario block occurs in the whole feature text
whenever the data-driven path is not taken. -/
theorem hasSub_generateFeature_of_scenario_line (kb : KnowledgeBase)
    (it : Intent) (tm : TransactionTemplate) (now n : Str)
    (hcnt : ¬ (1 < it.scenario_count)) (hn : n ∈ scenarioLines kb it tm) :
    hasSub n (generateFeature kb it tm now) = true := by
  have h1 : hasSub n (generateScenario kb it tm) = true := by
    simpa [generateScenario] using
      hasSub_joinSep (sl "\n") (scenarioLines kb it tm) n hn
  have hmem : generateScenario kb it tm ∈ featureLines kb it tm now := by
    simp only [featureLines, if_neg hcnt]
    exact List.mem_append_right _ (by simp)
  have h2 : hasSub (generateScenario kb it tm)
      (generateFeature kb it tm now) = true := by
    simpa [generateFeature] using
      hasSub_joinSep (sl "\n") (featureLines kb it tm now) _ hmem
  exact hasSub_trans h1 h2

-- ===========================================================================
-- C1: decline binding for "Declined due to insufficient funds"
-- ===========================================================================

/-- The claim's prompt. -/
def c1Prompt : Str := sl "Declined due to insufficient funds"

/-- The intent `generate` builds for `c1Prompt` under default options. -/
def c1Intent : Intent :=
  { parsePrompt defaultKb c1Prompt with
    include_sql := true
    use_common_calls := true
    include_docs := true }

/-- A zero-valued template (only used as a `getD` fallback). -/
def dummyTemplate : TransactionTemplate :=
  { id := [], name := [], description := [], category := [], card_network := [],
    message_type := [], processing_code := [], fields := [], tags := [] }

/-- The template selected for `c1Intent` (the Visa purchase default). -/
def c1Template : TransactionTemplate :=
  (lookupA defaultKb.templates (sl "visa_purchase_0100")).getD dummyTemplate

/-- The synthesis pipeline for `c1Prompt` under default options reduces to
the Visa-purchase feature. -/
theorem c1_generate_eq (now : Str) :
    generate defaultKb c1Prompt {} now =
      Except.ok (generateFeature defaultKb c1Intent c1Template now) := rfl

/-- C1: the claim is false on the code.  For the prompt "Declined due to
insufficient funds" the bound decline reason has code "01", not "51" — the
message word "to" of RC 01 "Refer to Issuer" occurs in the prompt and "01"
precedes "51" in registry order — and the synthesized feature text contains
neither a `DE4 = 999999999999` override nor a `response.DE39 == '51'`
assertion. -/
theorem c1_counterexample :
    ((parsePrompt defaultKb c1Prompt).decline_reason.map ResponseCode.code) =
      some (sl "01") ∧
    some (sl "01") ≠ some (sl "51") ∧
    hasSub (sl "DE4: '999999999999'")
      (exceptText (generate defaultKb c1Prompt {} [])) = false ∧
    hasSub (sl "response.DE39 == '51'")
      (exceptText (generate defaultKb c1Prompt {} [])) = false := by
  decide

/-- C1 (amended): for the prompt "Declined due to insufficient funds" the
parser yields `expected_result = declined` and binds decline reason "01"
("Refer to Issuer", matched via its message word "to"); that reason carries
no trigger field/value, so no field override is emitted, and the synthesized
feature text asserts `response.DE39 == '01'`. -/
theorem c1_amended (now : Str) :
    (parsePrompt defaultKb c1Prompt).expected_result = sl "declined" ∧
    ((parsePrompt defaultKb c1Prompt).decline_reason.map ResponseCode.code) =
      some (sl "01") ∧
    (expectedTriple c1Intent).2.2 = [] ∧
    hasSub (sl "    * match response.DE39 == '01'")
      (exceptText (generate defaultKb c1Prompt {} now)) = true := by
  refine ⟨by decide, by decide, by decide, ?_⟩
  rw [c1_generate_eq]
  show hasSub _ (generateFeature defaultKb c1Intent c1Template now) = true
  exact hasSub_generateFeature_of_scenario_line defaultKb c1Intent c1Template
    now _ (by decide) (by decide)

-- ===========================================================================
-- C4: approved-path assertions
-- ===========================================================================

/-- A prompt whose intent is approved with `scenario_count = 3`
(one of the UI's own quick examples). -/
def c4Prompt : Str := sl "Generate data-driven regression tests for various amounts"

/-- The option dict used for the C4 counterexample. -/
def c4Opts : Options :=
  { include_sql := false, use_common_calls := true, include_docs := false }

/-- The intent `generate` builds for `c4Prompt` under `c4Opts`. -/
def c4Intent : Intent :=
  { parsePrompt defaultKb c4Prompt with
    include_sql := false
    use_common_calls := true
    include_docs := false }

/-- C4: the claim is false on the code.  `c4Intent` is approved, but its
`scenario_count` is 3, so synthesis takes the data-driven path, whose output
contains no `response.DE38` assertion at all and no `response.DE39 == '00'`
assertion (only `== '<expectedRC>'`). -/
theorem c4_counterexample :
    c4Intent.expected_result = sl "approved" ∧
    hasSub (sl "response.DE38")
      (exceptText (generate defaultKb c4Prompt c4Opts [])) = false ∧
    hasSub (sl "response.DE39 == '00'")
      (exceptText (generate defaultKb c4Prompt c4Opts [])) = false := by
  decide

/-- C4 (amended): for every approved intent whose `scenario_count` is at
most 1 — the single-scenario path — and for every knowledge base, template,
option combination (carried inside the intent) and timestamp, the
synthesized feature text contains both the `response.DE39 == '00'` assertion
and the `response.DE38 == '#notnull'` assertion. -/
theorem c4_amended (kb : KnowledgeBase) (it : Intent)
    (tm : TransactionTemplate) (now : Str)
    (happ : it.expected_result = sl "approved") (hcnt : it.scenario_count ≤ 1) :
    hasSub (sl "    * match response.DE39 == '00'")
      (generateFeature kb it tm now) = true ∧
    hasSub (sl "    * match response.DE38 == '#notnull'")
      (generateFeature kb it tm now) = true := by
  have hlt : ¬ (1 < it.scenario_count) := by omega
  exact ⟨hasSub_generateFeature_of_scenario_line kb it tm now _ hlt
      (mem_scenarioLines_de39_approved kb it tm happ),
    hasSub_generateFeature_of_scenario_line kb it tm now _ hlt
      (mem_scenarioLines_de38_approved kb it tm happ)⟩

/-- A concrete approved single-scenario intent for the C4 witness. -/
def c4WIntent : Intent :=
  { test_type := sl "positive", transaction_type := sl "purchase",
    card_network := sl "visa", expected_result := sl "approved",
    decline_reason := none, amount := none, tags := [], scenario_count := 1,
    include_sql := true, use_common_calls := true, include_docs := true }

/-- Witness for the amended C4 at a concrete intent and template. -/
theorem c4_witness :
    hasSub (sl "    * match response.DE39 == '00'")
      (generateFeature defaultKb c4WIntent c1Template []) = true ∧
    hasSub (sl "    * match response.DE38 == '#notnull'")
      (generateFeature defaultKb c4WIntent c1Template []) = true :=
  c4_amended defaultKb c4WIntent c1Template [] rfl (by decide)

-- ===========================================================================
-- C6: expected response code / status defaults
-- ===========================================================================

/-- C6: in `_generate_scenario`, a declined intent with no bound decline
reason uses expected code "05" and expected status DECLINED (and the
scenario text asserts `response.DE39 == '05'`); an approved intent uses
"00" and COMPLETED (asserting `response.DE39 == '00'`). -/
theorem c6_expected_code_status (kb : KnowledgeBase) (it : Intent)
    (tm : TransactionTemplate) :
    (it.expected_result = sl "declined" → it.decline_reason = none →
      expectedTriple it = (sl "05", sl "DECLINED", []) ∧
      hasSub (sl "    * match response.DE39 == '05'")
        (generateScenario kb it tm) = true) ∧
    (it.expected_result = sl "approved" →
      expectedTriple it = (sl "00", sl "COMPLETED", []) ∧
      hasSub (sl "    * match response.DE39 == '00'")
        (generateScenario kb it tm) = true) := by
  constructor
  · intro hd hn
    have hne : ¬ (it.expected_result = sl "approved") := by rw [hd]; decide
    have htrip : expectedTriple it = (sl "05", sl "DECLINED", []) := by
      simp [expectedTriple, hne, hn]
    refine ⟨htrip, ?_⟩
    have hmem : (sl "    * match response.DE39 == '05'") ∈
        scenarioLines kb it tm := by
      simp only [scenarioLines, htrip]
      exact List.mem_append_left _ (List.mem_append_left _
        (List.mem_append_left _ (List.mem_append_right _ (by decide))))
    simpa [generateScenario] using
      hasSub_joinSep (sl "\n") (scenarioLines kb it tm) _ hmem
  · intro ha
    have htrip : expectedTriple it = (sl "00", sl "COMPLETED", []) := by
      simp [expectedTriple, ha]
    refine ⟨htrip, ?_⟩
    have hmem := mem_scenarioLines_de39_approved kb it tm ha
    simpa [generateScenario] using
      hasSub_joinSep (sl "\n") (scenarioLines kb it tm) _ hmem

/-- A concrete declined intent with no bound decline reason. -/
def c6DIntent : Intent :=
  { test_type := sl "negative", transaction_type := sl "purchase",
    card_network := sl "visa", expected_result := sl "declined",
    decline_reason := none, amount := none, tags := [], scenario_count := 1,
    include_sql := true, use_common_calls := true, include_docs := true }

/-- Witness for C6 at concrete declined and approved intents. -/
theorem c6_witness :
    (expectedTriple c6DIntent = (sl "05", sl "DECLINED", []) ∧
     hasSub (sl "    * match response.DE39 == '05'")
       (generateScenario defaultKb c6DIntent c1Template) = true) ∧
    (expectedTriple c4WIntent = (sl "00", sl "COMPLETED", []) ∧
     hasSub (sl "    * match response.DE39 == '00'")
       (generateScenario defaultKb c4WIntent c1Template) = true) :=
  ⟨(c6_expected_code_status defaultKb c6DIntent c1Template).1 rfl rfl,
   (c6_expected_code_status defaultKb c4WIntent c1Template).2 rfl⟩

-- ===========================================================================
-- C9: transaction-category detection
-- ===========================================================================

theorem firstKeyMatch_cons (e : Str × List Str) (table : List (Str × List Str))
    (pl dflt : Str) :
    firstKeyMatch (e :: table) pl dflt =
      if e.2.any (fun kw => hasSub kw pl) then e.1
      else firstKeyMatch table pl dflt := by
  by_cases h : e.2.any (fun kw => hasSub kw pl)
  · simp [firstKeyMatch, List.find?_cons, h]
  · simp [firstKeyMatch, List.find?_cons, h]

theorem firstKeyMatch_nil (pl dflt : Str) :
    firstKeyMatch [] pl dflt = dflt := rfl

/-- Stated from the claim (C9's keyword table, verbatim): withdrawal is
claimed to carry the keyword "cash", and cashback only "cashback"; no
purchase entry is claimed, purchase being the default. -/
def c9ClaimCategory (prompt : Str) : Str :=
  let t := lc prompt
  if [sl "withdraw", sl "atm", sl "cash"].any (fun kw => hasSub kw t) then
    sl "withdrawal"
  else if [sl "refund", sl "return", sl "credit"].any (fun kw => hasSub kw t) then
    sl "refund"
  else if [sl "reversal", sl "void", sl "cancel"].any (fun kw => hasSub kw t) then
    sl "reversal"
  else if [sl "balance", sl "inquiry"].any (fun kw => hasSub kw t) then
    sl "balance"
  else if [sl "cashback"].any (fun kw => hasSub kw t) then
    sl "cashback"
  else sl "purchase"

/-- The amended rule, following the source's `transaction_keywords` table:
withdrawal carries "cash out" (not "cash"), cashback also carries
"cash back", and a final purchase entry ("purchase"/"buy"/"payment"/"sale")
precedes the purchase default. -/
def c9AmendedCategory (prompt : Str) : Str :=
  let t := lc prompt
  if [sl "withdraw", sl "atm", sl "cash out"].any (fun kw => hasSub kw t) then
    sl "withdrawal"
  else if [sl "refund", sl "credit", sl "return"].any (fun kw => hasSub kw t) then
    sl "refund"
  else if [sl "reversal", sl "void", sl "cancel"].any (fun kw => hasSub kw t) then
    sl "reversal"
  else if [sl "balance", sl "inquiry"].any (fun kw => hasSub kw t) then
    sl "balance"
  else if [sl "cashback", sl "cash back"].any (fun kw => hasSub kw t) then
    sl "cashback"
  else if [sl "purchase", sl "buy", sl "payment", sl "sale"].any
      (fun kw => hasSub kw t) then
    sl "purchase"
  else sl "purchase"

/-- C9: the claim is false on the code.  For the prompt "cashback" the
claimed table binds withdrawal (its claimed keyword "cash" is a substring of
"cashback"), but the code's withdrawal keywords are
`withdraw`/`atm`/`cash out`, so the code binds cashback. -/
theorem c9_counterexample :
    (parsePrompt defaultKb (sl "cashback")).transaction_type = sl "cashback" ∧
    c9ClaimCategory (sl "cashback") = sl "withdrawal" ∧
    sl "cashback" ≠ sl "withdrawal" := by
  decide

/-- C9 (amended): for every prompt and knowledge base, the bound transaction
category is the first entry of the source's ordered keyword table
(withdrawal: withdraw/atm/"cash out"; refund: refund/credit/return;
reversal: reversal/void/cancel; balance: balance/inquiry; cashback:
cashback/"cash back"; purchase: purchase/buy/payment/sale) whose keyword set
has a member occurring as a substring of the lower-cased prompt; if no entry
matches, the category is purchase. -/
theorem c9_amended (kb : KnowledgeBase) (prompt : Str) :
    (parsePrompt kb prompt).transaction_type = c9AmendedCategory prompt := by
  simp only [parsePrompt, c9AmendedCategory, transactionKeywords,
    firstKeyMatch_cons, firstKeyMatch_nil]

-- ===========================================================================
-- C10: similarity ranking sql bonus (spec-modelled)
-- ===========================================================================

/-- Modelled from the spec: the `ScenarioRecord` of §3.  The SimilarityRanker
and its record type are described by the spec but absent from `src/`. -/
structure ScenarioRecord where
  name : Str
  tags : List Str
  body : Str
  source_file : Str
  template_used : Option Str
  response_code : Option Str
  has_sql : Bool
  has_common_calls : Bool
deriving DecidableEq

/-- Modelled from the spec (§4.3): the SimilarityRanker score — the count of
lower-cased query words occurring as substrings of the concatenated
name+tags+body, plus the fixed bonuses (+3 negative/decline tag, +3 e2e tag,
+2 `has_sql` with "sql" in the query, +2 approved with code "00",
+2 declined with a non-"00" code). -/
def simScore (query : Str) (s : ScenarioRecord) : Nat :=
  let q := lc query
  let hay := lc (s.name ++ joinSep (sl " ") s.tags ++ s.body)
  ((wordsOf q).filter (fun w => hasSub w hay)).length
  + (if (hasSub (sl "negative") q || hasSub (sl "decline") q) &&
        s.tags.any (fun t => t == sl "negative" || t == sl "decline")
     then 3 else 0)
  + (if hasSub (sl "e2e") q && s.tags.any (fun t => t == sl "e2e")
     then 3 else 0)
  + (if hasSub (sl "sql") q && s.has_sql then 2 else 0)
  + (if hasSub (sl "approved") q && s.response_code == some (sl "00")
     then 2 else 0)
  + (if hasSub (sl "declined") q &&
        (match s.response_code with
         | some c => !(c == sl "00")
         | none => false)
     then 2 else 0)

/-- C10: two scenarios identical except for `has_sql`, scored against a
query containing "sql", differ exactly by the +2 sql bonus, so the
`has_sql = true` copy scores strictly higher. -/
theorem c10_sql_bonus (s : ScenarioRecord) (q : Str)
    (hq : hasSub (sl "sql") (lc q) = true) :
    simScore q { s with has_sql := false } < simScore q { s with has_sql := true } := by
  simp only [simScore, hq, Bool.true_and, Bool.and_true, Bool.and_false]
  simp

/-- A concrete record for the C10 witness. -/
def c10Scen : ScenarioRecord :=
  { name := sl "Purchase - Approved", tags := [sl "visa"],
    body := sl "Given x", source_file := sl "f", template_used := none,
    response_code := some (sl "00"), has_sql := true,
    has_common_calls := false }

/-- Witness for C10 at a concrete scenario pair and query. -/
theorem c10_witness :
    simScore (sl "sql test") { c10Scen with has_sql := false } <
      simScore (sl "sql test") { c10Scen with has_sql := true } :=
  c10_sql_bonus c10Scen (sl "sql test") (by decide)

-- ===========================================================================
-- C3: template selection
-- ===========================================================================

theorem goMax_first_max (l : List (Str × Nat)) (b : Str × Nat) :
    ∃ pre c post, b :: l = pre ++ c :: post ∧ goMax b l = c.1 ∧
      (∀ p ∈ pre, p.2 < c.2) ∧ (∀ p ∈ post, p.2 ≤ c.2) := by
  induction l generalizing b with
  | nil => exact ⟨[], b, [], rfl, rfl, by simp, by simp⟩
  | cons kv t ih =>
      obtain ⟨k, v⟩ := kv
      by_cases hlt : b.2 < v
      · obtain ⟨pre, c, post, hsplit, hgo, hpre, hpost⟩ := ih (k, v)
        refine ⟨b :: pre, c, post, by simp [hsplit], ?_, ?_, hpost⟩
        · simp [goMax, hlt, hgo]
        · intro p hp
          rcases List.mem_cons.mp hp with rfl | hp'
          · have hkv : (k, v) ∈ pre ++ c :: post := by
              rw [← hsplit]; exact List.mem_cons_self _ _
            rcases List.mem_append.mp hkv with h1 | h2
            · exact lt_trans hlt (hpre _ h1)
            · rcases List.mem_cons.mp h2 with heq | h3
              · rw [← heq]; exact hlt
              · exact lt_of_lt_of_le hlt (hpost _ h3)
          · exact hpre _ hp'
      · obtain ⟨pre, c, post, hsplit, hgo, hpre, hpost⟩ := ih b
        cases pre with
        | nil =>
            simp only [List.nil_append, List.cons.injEq] at hsplit
            obtain ⟨hbc, hpostt⟩ := hsplit
            refine ⟨[], b, (k, v) :: t, rfl, ?_, by simp, ?_⟩
            · simp [goMax, hlt, hgo, ← hbc]
            · intro p hp
              rcases List.mem_cons.mp hp with rfl | hp'
              · show v ≤ b.2
                omega
              · rw [hbc]
                exact hpost _ (by rw [← hpostt]; exact hp')
        | cons q pre' =>
            simp only [List.cons_append, List.cons.injEq] at hsplit
            obtain ⟨rfl, ht⟩ := hsplit
            refine ⟨b :: (k, v) :: pre', c, post, by simp [ht], ?_, ?_, hpost⟩
            · simp [goMax, hlt, hgo]
            · intro p hp
              have hbc : b.2 < c.2 := hpre _ (List.mem_cons_self _ _)
              rcases List.mem_cons.mp hp with rfl | hp'
              · exact hbc
              · rcases List.mem_cons.mp hp' with rfl | hp''
                · omega
                · exact hpre _ (List.mem_cons_of_mem _ hp'')

theorem map_split {α β : Type} (f : α → β) :
    ∀ (A : List β) (L : List α) (c : β) (B : List β),
      L.map f = A ++ c :: B →
      ∃ A' x B', L = A' ++ x :: B' ∧ A'.map f = A ∧ f x = c ∧ B'.map f = B := by
  intro A
  induction A with
  | nil =>
      intro L c B h
      cases L with
      | nil => simp at h
      | cons x t =>
          simp only [List.map_cons, List.nil_append, List.cons.injEq] at h
          exact ⟨[], x, t, rfl, rfl, h.1, h.2⟩
  | cons a A0 ih =>
      intro L c B h
      cases L with
      | nil => simp at h
      | cons x t =>
          simp only [List.map_cons, List.cons_append, List.cons.injEq] at h
          obtain ⟨hfx, hrest⟩ := h
          obtain ⟨A1, y, B1, hsplit, hA, hfy, hB⟩ := ih t c B hrest
          exact ⟨x :: A1, y, B1, by simp [hsplit], by simp [hA, hfx], hfy, hB⟩

theorem lookupA_split_nodup {α : Type} :
    ∀ (pre : List (Str × α)) (k : Str) (v : α) (post : List (Str × α)),
      ((pre ++ (k, v) :: post).map Prod.fst).Nodup →
      lookupA (pre ++ (k, v) :: post) k = some v := by
  intro pre
  induction pre with
  | nil => intro k v post _; simp [lookupA]
  | cons q pre' ih =>
      intro k v post hnd
      simp only [List.cons_append, List.map_cons, List.nodup_cons] at hnd
      obtain ⟨hq, hnd'⟩ := hnd
      have hne : q.1 ≠ k := by
        intro he
        apply hq
        rw [he]
        exact List.mem_map_of_mem _
          (List.mem_append_right _ (List.mem_cons_self _ _))
      obtain ⟨q1, q2⟩ := q
      simpa only [List.cons_append, lookupA, if_neg hne] using ih k v post hnd'

/-- C3: for every intent and every non-empty knowledge base with
duplicate-free template ids (a dict invariant), `_find_template` returns the
template whose score (10 for category match, +5 for network match, +2 per
intent tag in the template tags) is maximal, with the first-encountered
template in insertion order winning ties: the registry splits around the
returned template, every earlier template scores strictly less and every
later one at most as much.  Being a pure function of the intent and the
registry order, repeated calls return the same template. -/
theorem c3_template_selection (kb : KnowledgeBase) (it : Intent)
    (hne : kb.templates ≠ [])
    (hnd : (kb.templates.map Prod.fst).Nodup) :
    ∃ pre c post, kb.templates = pre ++ c :: post ∧
      findTemplate kb it = Except.ok c.2 ∧
      (∀ p ∈ pre, scoreTemplate p.2 it < scoreTemplate c.2 it) ∧
      (∀ p ∈ post, scoreTemplate p.2 it ≤ scoreTemplate c.2 it) := by
  rcases htl : kb.templates with _ | ⟨q, tl⟩
  · exact absurd htl hne
  obtain ⟨pre, c, post, hsplit, hgo, hpre, hpost⟩ :=
    goMax_first_max (tl.map (fun p => (p.1, scoreTemplate p.2 it)))
      (q.1, scoreTemplate q.2 it)
  have hmap : (q :: tl).map (fun p => (p.1, scoreTemplate p.2 it)) =
      pre ++ c :: post := by simpa using hsplit
  obtain ⟨A1, x, B1, hsplit2, hA, hfx, hB⟩ :=
    map_split (fun p => (p.1, scoreTemplate p.2 it)) pre (q :: tl) c post hmap
  have hndx : (((A1 : List (Str × TransactionTemplate)) ++ x :: B1).map
      Prod.fst).Nodup := by
    rw [← hsplit2, ← htl]; exact hnd
  have hlook : lookupA (A1 ++ x :: B1) x.1 = some x.2 :=
    lookupA_split_nodup A1 x.1 x.2 B1 hndx
  have hfind : findTemplate kb it = Except.ok x.2 := by
    simp only [findTemplate, htl, List.map_cons]
    rw [hgo, ← hfx]
    rw [hsplit2, hlook]
  refine ⟨A1, x, B1, hsplit2, hfind, ?_, ?_⟩
  · intro p hp
    have : (p.1, scoreTemplate p.2 it) ∈ pre := by
      rw [← hA]; exact List.mem_map_of_mem _ hp
    have h2 := hpre _ this
    rw [← hfx] at h2
    exact h2
  · intro p hp
    have : (p.1, scoreTemplate p.2 it) ∈ post := by
      rw [← hB]; exact List.mem_map_of_mem _ hp
    have h2 := hpost _ this
    rw [← hfx] at h2
    exact h2

/-- Witness for C3 at the default knowledge base and a concrete intent. -/
theorem c3_witness :
    ∃ pre c post, defaultKb.templates = pre ++ c :: post ∧
      findTemplate defaultKb c4WIntent = Except.ok c.2 ∧
      (∀ p ∈ pre, scoreTemplate p.2 c4WIntent < scoreTemplate c.2 c4WIntent) ∧
      (∀ p ∈ post, scoreTemplate p.2 c4WIntent ≤ scoreTemplate c.2 c4WIntent) :=
  c3_template_selection defaultKb c4WIntent (by decide) (by decide)

-- ===========================================================================
-- C7: export/import round trip
-- ===========================================================================

theorem lookupA_assignA_self {α : Type} (m : List (Str × α)) (k : Str) (v : α) :
    lookupA (assignA m k v) k = some v := by
  induction m with
  | nil => simp [assignA, lookupA]
  | cons q t ih =>
      obtain ⟨q1, q2⟩ := q
      by_cases hq : q1 = k
      · subst hq; simp [assignA, lookupA]
      · simp [assignA, lookupA, if_neg hq, ih]

theorem lookupA_assignA_ne {α : Type} (m : List (Str × α)) (k : Str) (v : α)
    (k' : Str) (hne : k' ≠ k) :
    lookupA (assignA m k v) k' = lookupA m k' := by
  have hne' : k ≠ k' := Ne.symm hne
  induction m with
  | nil => simp [assignA, lookupA, hne']
  | cons q t ih =>
      obtain ⟨q1, q2⟩ := q
      by_cases hq : q1 = k
      · subst hq
        simp [assignA, lookupA, hne']
      · simp [assignA, lookupA, if_neg hq, ih]

theorem mem_keysOf_iff {α : Type} (m : List (Str × α)) (k : Str) :
    k ∈ keysOf m ↔ (lookupA m k).isSome = true := by
  induction m with
  | nil =>
      show k ∈ ([] : List Str) ↔ (none : Option α).isSome = true
      simp
  | cons q t ih =>
      obtain ⟨q1, q2⟩ := q
      by_cases hq : q1 = k
      · subst hq
        simp only [lookupA, if_pos rfl, Option.isSome_some, keysOf,
          List.map_cons, List.mem_cons]
        exact iff_of_true (Or.inl trivial) rfl
      · simp only [keysOf, List.map_cons, List.mem_cons, lookupA, if_neg hq]
        rw [show (List.map Prod.fst t) = keysOf t from rfl]
        rw [ih]
        simp [Ne.symm hq]

theorem mem_keys_assignA {α : Type} (m : List (Str × α)) (k : Str) (v : α)
    (k' : Str) :
    k' ∈ keysOf (assignA m k v) ↔ k' ∈ keysOf m ∨ k' = k := by
  by_cases hk : k' = k
  · subst hk
    simp [mem_keysOf_iff, lookupA_assignA_self]
  · rw [mem_keysOf_iff, lookupA_assignA_ne m k v k' hk, ← mem_keysOf_iff]
    simp [hk]

theorem mem_keys_fold {α : Type} (l : List (Str × α)) (m : List (Str × α))
    (k : Str) :
    k ∈ keysOf (l.foldl (fun m p => assignA m p.1 p.2) m) ↔
      k ∈ keysOf m ∨ k ∈ keysOf l := by
  induction l generalizing m with
  | nil =>
      show k ∈ keysOf m ↔ k ∈ keysOf m ∨ k ∈ ([] : List Str)
      simp
  | cons p t ih =>
      simp only [List.foldl_cons]
      rw [ih, mem_keys_assignA]
      simp only [keysOf, List.map_cons, List.mem_cons]
      tauto

theorem lookupA_fold_not_mem {α : Type} (l : List (Str × α))
    (m : List (Str × α)) (k : Str) (hk : k ∉ keysOf l) :
    lookupA (l.foldl (fun m p => assignA m p.1 p.2) m) k = lookupA m k := by
  induction l generalizing m with
  | nil => rfl
  | cons p t ih =>
      simp only [keysOf, List.map_cons, List.mem_cons] at hk
      push_neg at hk
      simp only [List.foldl_cons]
      rw [ih _ hk.2, lookupA_assignA_ne _ _ _ _ hk.1]

/-- C7: exporting any knowledge base and importing into a freshly
constructed one yields template and response-code registries whose key sets
equal the original's; the hypotheses record that every knowledge base
reachable through the API contains the construction-time default keys (there
is no removal operation).  The final conjunct states that import is
additive/overwriting by key for arbitrary import data: existing keys are
never removed and entries under keys absent from the import are untouched. -/
theorem c7_roundtrip (kb : KnowledgeBase)
    (ht : ∀ k, k ∈ keysOf defaultKb.templates → k ∈ keysOf kb.templates)
    (hr : ∀ k, k ∈ keysOf defaultKb.response_codes →
      k ∈ keysOf kb.response_codes) :
    (∀ k, k ∈ keysOf (import_from_json defaultKb (export_to_json kb)).templates
      ↔ k ∈ keysOf kb.templates) ∧
    (∀ k, k ∈ keysOf
        (import_from_json defaultKb (export_to_json kb)).response_codes
      ↔ k ∈ keysOf kb.response_codes) ∧
    (∀ (kb0 : KnowledgeBase) (d : ExportData) (k : Str),
      (k ∈ keysOf kb0.templates →
        k ∈ keysOf (import_from_json kb0 d).templates) ∧
      (k ∉ keysOf d.templates →
        lookupA (import_from_json kb0 d).templates k =
          lookupA kb0.templates k) ∧
      (k ∈ keysOf kb0.response_codes →
        k ∈ keysOf (import_from_json kb0 d).response_codes) ∧
      (k ∉ keysOf d.response_codes →
        lookupA (import_from_json kb0 d).response_codes k =
          lookupA kb0.response_codes k)) := by
  refine ⟨?_, ?_, ?_⟩
  · intro k
    simp only [import_from_json, export_to_json]
    rw [mem_keys_fold]
    constructor
    · rintro (h | h)
      · exact ht k h
      · exact h
    · exact Or.inr
  · intro k
    simp only [import_from_json, export_to_json]
    rw [mem_keys_fold]
    constructor
    · rintro (h | h)
      · exact hr k h
      · exact h
    · exact Or.inr
  · intro kb0 d k
    refine ⟨?_, ?_, ?_, ?_⟩
    · intro h
      simp only [import_from_json]
      rw [mem_keys_fold]
      exact Or.inl h
    · intro h
      simp only [import_from_json]
      exact lookupA_fold_not_mem _ _ _ h
    · intro h
      simp only [import_from_json]
      rw [mem_keys_fold]
      exact Or.inl h
    · intro h
      simp only [import_from_json]
      exact lookupA_fold_not_mem _ _ _ h

/-- Witness for C7: key-set equality instances at the default knowledge
base. -/
theorem c7_witness :
    (sl "visa_purchase_0100" ∈
        keysOf (import_from_json defaultKb (export_to_json defaultKb)).templates
      ↔ sl "visa_purchase_0100" ∈ keysOf defaultKb.templates) ∧
    (sl "51" ∈ keysOf
        (import_from_json defaultKb (export_to_json defaultKb)).response_codes
      ↔ sl "51" ∈ keysOf defaultKb.response_codes) :=
  ⟨(c7_roundtrip defaultKb (fun _ h => h) (fun _ h => h)).1 _,
   (c7_roundtrip defaultKb (fun _ h => h) (fun _ h => h)).2.1 _⟩

-- ===========================================================================
-- C8: idempotence of step normalization
-- ===========================================================================

theorem dropWhile_head_false {α : Type} (p : α → Bool) (l : List α) (d : α)
    (t : List α) (h : l.dropWhile p = d :: t) : p d = false := by
  induction l with
  | nil => simp [List.dropWhile] at h
  | cons c r ih =>
      rw [List.dropWhile_cons] at h
      by_cases hc : p c
      · rw [if_pos hc] at h; exact ih h
      · rw [if_neg hc] at h
        cases h
        simpa using hc

theorem all_of_dropWhile_nil {α : Type} (p : α → Bool) (l : List α)
    (h : l.dropWhile p = []) : ∀ x ∈ l, p x = true := by
  induction l with
  | nil => intro x hx; cases hx
  | cons c r ih =>
      rw [List.dropWhile_cons] at h
      by_cases hc : p c
      · rw [if_pos hc] at h
        intro x hx
        rcases List.mem_cons.mp hx with rfl | hx'
        · exact hc
        · exact ih h x hx'
      · rw [if_neg hc] at h; cases h

theorem dropWhile_nil_of_all {α : Type} (p : α → Bool) (l : List α)
    (h : ∀ x ∈ l, p x = true) : l.dropWhile p = [] := by
  induction l with
  | nil => rfl
  | cons c r ih =>
      rw [List.dropWhile_cons, if_pos (h c (List.mem_cons_self _ _))]
      exact ih (fun x hx => h x (List.mem_cons_of_mem _ hx))

theorem takeWhile_all {α : Type} (p : α → Bool) (l : List α) :
    ∀ x ∈ l.takeWhile p, p x = true := by
  induction l with
  | nil => intro x hx; cases hx
  | cons c r ih =>
      rw [List.takeWhile_cons]
      by_cases hc : p c
      · rw [if_pos hc]
        intro x hx
        rcases List.mem_cons.mp hx with rfl | hx'
        · exact hc
        · exact ih x hx'
      · rw [if_neg hc]
        intro x hx; cases hx

theorem takeWhile_append_all {α : Type} (p : α → Bool) (l1 l2 : List α)
    (h : ∀ x ∈ l1, p x = true) :
    (l1 ++ l2).takeWhile p = l1 ++ l2.takeWhile p := by
  induction l1 with
  | nil => rfl
  | cons c r ih =>
      rw [List.cons_append, List.takeWhile_cons,
        if_pos (h c (List.mem_cons_self _ _)), ih (fun x hx => h x (List.mem_cons_of_mem _ hx))]
      rfl

theorem dropWhile_append_all {α : Type} (p : α → Bool) (l1 l2 : List α)
    (h : ∀ x ∈ l1, p x = true) :
    (l1 ++ l2).dropWhile p = l2.dropWhile p := by
  induction l1 with
  | nil => rfl
  | cons c r ih =>
      rw [List.cons_append, List.dropWhile_cons,
        if_pos (h c (List.mem_cons_self _ _))]
      exact ih (fun x hx => h x (List.mem_cons_of_mem _ hx))

theorem isQuoteC_of_isDigit (c : Char) (h : c.isDigit = true) :
    isQuoteC c = false := by
  unfold isQuoteC
  have h1 : (c == squoteC) = false := by
    cases hc : c == squoteC
    · rfl
    · rw [beq_iff_eq] at hc; subst hc; exact absurd h (by decide)
  have h2 : (c == dquoteC) = false := by
    cases hc : c == dquoteC
    · rfl
    · rw [beq_iff_eq] at hc; subst hc; exact absurd h (by decide)
  rw [h1, h2]
  rfl

theorem isDigit_of_isQuoteC (c : Char) (h : isQuoteC c = true) :
    c.isDigit = false := by
  unfold isQuoteC at h
  rcases Bool.or_eq_true_iff.mp h with h1 | h1 <;>
  · rw [beq_iff_eq] at h1; subst h1; decide

theorem innerValue_nonquote : ∀ x ∈ innerValue, isQuoteC x = false := by decide

theorem innerValue_nondigit : ∀ x ∈ innerValue, x.isDigit = false := by decide

theorem innerValue_notWh : ∀ x ∈ innerValue, (!isQuoteC x) = true := by decide

theorem numberTok_nonquote : ∀ x ∈ numberTok, isQuoteC x = false := by decide

theorem numberTok_nondigit : ∀ x ∈ numberTok, x.isDigit = false := by decide

theorem valueTok_eq : valueTok = dquoteC :: (innerValue ++ [dquoteC]) := by decide

theorem isQuoteC_dquoteC : isQuoteC dquoteC = true := by decide

/-- The fixed-point invariant of `sub1`: scanning as `sub1` does, every
quote-match region is exactly `"{value}"`.  `pFix u` holds exactly when
`sub1 u = u`. -/
def pFix : List Char → Bool
  | [] => true
  | c :: rest =>
      if isQuoteC c then
        match h : rest.dropWhile (fun x => !isQuoteC x) with
        | [] => pFix rest
        | d :: rest2 =>
            if (rest.takeWhile (fun x => !isQuoteC x)).isEmpty then pFix rest
            else
              (c == dquoteC) &&
                (rest.takeWhile (fun x => !isQuoteC x) == innerValue) &&
                (d == dquoteC) && pFix rest2
      else pFix rest
termination_by l => l.length
decreasing_by
  all_goals simp only [List.length_cons]
  all_goals try omega
  all_goals have hle := dropWhile_len_le (fun x => !isQuoteC x) rest
  all_goals rw [h] at hle
  all_goals simp only [List.length_cons] at hle
  all_goals omega

theorem sub1_nil : sub1 [] = [] := by simp [sub1]

theorem sub1_cons_nonquote (c : Char) (rest : List Char)
    (hc : isQuoteC c = false) : sub1 (c :: rest) = c :: sub1 rest := by
  simp [sub1, hc]

theorem sub1_cons_unclosed (c : Char) (rest : List Char)
    (hc : isQuoteC c = true)
    (hdw : rest.dropWhile (fun x => !isQuoteC x) = []) :
    sub1 (c :: rest) = c :: sub1 rest := by
  simp only [sub1, hc, if_true]
  split
  · rfl
  · rename_i d rest2 heq
    rw [hdw] at heq
    cases heq

theorem sub1_cons_emptyrun (c : Char) (rest : List Char) (d : Char)
    (rest2 : List Char) (hc : isQuoteC c = true)
    (hdw : rest.dropWhile (fun x => !isQuoteC x) = d :: rest2)
    (hemp : (rest.takeWhile (fun x => !isQuoteC x)).isEmpty = true) :
    sub1 (c :: rest) = c :: sub1 rest := by
  simp only [sub1, hc, if_true]
  split
  · rfl
  · simp [hemp]

theorem sub1_cons_match (c : Char) (rest : List Char) (d : Char)
    (rest2 : List Char) (hc : isQuoteC c = true)
    (hdw : rest.dropWhile (fun x => !isQuoteC x) = d :: rest2)
    (hemp : (rest.takeWhile (fun x => !isQuoteC x)).isEmpty = false) :
    sub1 (c :: rest) = valueTok ++ sub1 rest2 := by
  simp only [sub1, hc, if_true]
  split
  · rename_i heq
    rw [heq] at hdw
    cases hdw
  · rename_i d' rest2' heq
    rw [hdw] at heq
    injection heq with h1 h2
    subst h2
    simp [hemp]

theorem pFix_nil : pFix [] = true := by simp [pFix]

theorem pFix_cons_nonquote (c : Char) (rest : List Char)
    (hc : isQuoteC c = false) : pFix (c :: rest) = pFix rest := by
  simp [pFix, hc]

theorem pFix_cons_unclosed (c : Char) (rest : List Char)
    (hc : isQuoteC c = true)
    (hdw : rest.dropWhile (fun x => !isQuoteC x) = []) :
    pFix (c :: rest) = pFix rest := by
  simp only [pFix, hc, if_true]
  split
  · rfl
  · rename_i d rest2 heq
    rw [hdw] at heq
    cases heq

theorem pFix_cons_emptyrun (c : Char) (rest : List Char) (d : Char)
    (rest2 : List Char) (hc : isQuoteC c = true)
    (hdw : rest.dropWhile (fun x => !isQuoteC x) = d :: rest2)
    (hemp : (rest.takeWhile (fun x => !isQuoteC x)).isEmpty = true) :
    pFix (c :: rest) = pFix rest := by
  simp only [pFix, hc, if_true]
  split
  · rfl
  · simp [hemp]

theorem pFix_cons_match (c : Char) (rest : List Char) (d : Char)
    (rest2 : List Char) (hc : isQuoteC c = true)
    (hdw : rest.dropWhile (fun x => !isQuoteC x) = d :: rest2)
    (hemp : (rest.takeWhile (fun x => !isQuoteC x)).isEmpty = false) :
    pFix (c :: rest) =
      ((c == dquoteC) && (rest.takeWhile (fun x => !isQuoteC x) == innerValue)
        && (d == dquoteC) && pFix rest2) := by
  simp only [pFix, hc, if_true]
  split
  · rename_i heq
    rw [heq] at hdw
    cases hdw
  · rename_i d' rest2' heq
    rw [hdw] at heq
    injection heq with h1 h2
    subst h1
    subst h2
    simp [hemp]

theorem sub1_all_nonquote (l : List Char)
    (h : ∀ x ∈ l, isQuoteC x = false) : sub1 l = l := by
  induction l with
  | nil => exact sub1_nil
  | cons c t ih =>
      rw [sub1_cons_nonquote c t (h c (List.mem_cons_self _ _))]
      rw [ih (fun x hx => h x (List.mem_cons_of_mem _ hx))]

theorem pFix_all_nonquote (l : List Char)
    (h : ∀ x ∈ l, isQuoteC x = false) : pFix l = true := by
  induction l with
  | nil => exact pFix_nil
  | cons c t ih =>
      rw [pFix_cons_nonquote c t (h c (List.mem_cons_self _ _))]
      exact ih (fun x hx => h x (List.mem_cons_of_mem _ hx))

theorem pFix_nonquote_pre (p t : List Char)
    (hp : ∀ x ∈ p, isQuoteC x = false) : pFix (p ++ t) = pFix t := by
  induction p with
  | nil => rfl
  | cons c r ih =>
      rw [List.cons_append,
        pFix_cons_nonquote c (r ++ t) (hp c (List.mem_cons_self _ _))]
      exact ih (fun x hx => hp x (List.mem_cons_of_mem _ hx))

theorem sub1_head_quote (c : Char) (rest : List Char)
    (hc : isQuoteC c = true) :
    ∃ e t2, sub1 (c :: rest) = e :: t2 ∧ isQuoteC e = true := by
  rcases hdw : rest.dropWhile (fun x => !isQuoteC x) with _ | ⟨d, rest2⟩
  · exact ⟨c, sub1 rest, sub1_cons_unclosed c rest hc hdw, hc⟩
  · by_cases hemp : (rest.takeWhile (fun x => !isQuoteC x)).isEmpty
    · exact ⟨c, sub1 rest, sub1_cons_emptyrun c rest d rest2 hc hdw hemp, hc⟩
    · refine ⟨dquoteC, (innerValue ++ [dquoteC]) ++ sub1 rest2, ?_, isQuoteC_dquoteC⟩
      rw [sub1_cons_match c rest d rest2 hc hdw (by simpa using hemp),
        valueTok_eq]
      simp

theorem pFix_valueTok_append (x : List Char) :
    pFix (valueTok ++ x) = pFix x := by
  have hshape : valueTok ++ x = dquoteC :: (innerValue ++ dquoteC :: x) := by
    rw [valueTok_eq]; simp
  rw [hshape]
  have hdw : (innerValue ++ dquoteC :: x).dropWhile (fun a => !isQuoteC a) =
      dquoteC :: x := by
    rw [dropWhile_append_all _ _ _ innerValue_notWh, List.dropWhile_cons]
    simp [isQuoteC_dquoteC]
  have htw : (innerValue ++ dquoteC :: x).takeWhile (fun a => !isQuoteC a) =
      innerValue := by
    rw [takeWhile_append_all _ _ _ innerValue_notWh, List.takeWhile_cons]
    simp [isQuoteC_dquoteC]
  rw [pFix_cons_match dquoteC _ dquoteC x isQuoteC_dquoteC hdw
    (by rw [htw]; decide)]
  rw [htw]
  simp

theorem pFix_sub1 (l : List Char) : pFix (sub1 l) = true := by
  induction l using sub1.induct with
  | case1 => rw [sub1_nil]; exact pFix_nil
  | case2 c rest hq hdw ih =>
      rw [sub1_cons_unclosed c rest hq hdw]
      have hall : ∀ x ∈ rest, isQuoteC x = false := by
        intro x hx
        have := all_of_dropWhile_nil _ rest hdw x hx
        simpa using this
      rw [sub1_all_nonquote rest hall]
      rw [pFix_cons_unclosed c rest hq hdw]
      exact pFix_all_nonquote rest hall
  | case3 c rest hq d rest2 hdw hemp ih =>
      rw [sub1_cons_emptyrun c rest d rest2 hq hdw hemp]
      have hrest : rest = d :: rest2 := by
        conv_lhs => rw [← List.takeWhile_append_dropWhile
          (fun x => !isQuoteC x) rest]
        rw [List.isEmpty_iff.mp hemp, hdw]
        rfl
      have hdq : isQuoteC d = true := by
        have := dropWhile_head_false (fun x => !isQuoteC x) rest d rest2 hdw
        simpa using this
      obtain ⟨e, t2, hsub, heq⟩ := sub1_head_quote d rest2 hdq
      rw [hrest, hsub]
      have hdw2 : (e :: t2).dropWhile (fun x => !isQuoteC x) = e :: t2 := by
        rw [List.dropWhile_cons]
        simp [heq]
      have hemp2 : ((e :: t2).takeWhile (fun x => !isQuoteC x)).isEmpty = true := by
        rw [List.takeWhile_cons]
        simp [heq]
      rw [pFix_cons_emptyrun c (e :: t2) e t2 hq hdw2 hemp2]
      rw [← hsub, ← hrest]
      exact ih
  | case4 c rest hq d rest2 hdw hemp ih =>
      rw [sub1_cons_match c rest d rest2 hq hdw (by simpa using hemp)]
      rw [pFix_valueTok_append]
      exact ih
  | case5 c rest hq ih =>
      rw [sub1_cons_nonquote c rest (by simpa using hq)]
      rw [pFix_cons_nonquote c (sub1 rest) (by simpa using hq)]
      exact ih

theorem sub1_of_pFix (u : List Char) (hp : pFix u = true) : sub1 u = u := by
  induction u using pFix.induct with
  | case1 => exact sub1_nil
  | case2 c rest hq hdw ih =>
      rw [pFix_cons_unclosed c rest hq hdw] at hp
      rw [sub1_cons_unclosed c rest hq hdw, ih hp]
  | case3 c rest hq d rest2 hdw hemp ih =>
      rw [pFix_cons_emptyrun c rest d rest2 hq hdw hemp] at hp
      rw [sub1_cons_emptyrun c rest d rest2 hq hdw hemp, ih hp]
  | case4 c rest hq d rest2 hdw hemp ih =>
      rw [pFix_cons_match c rest d rest2 hq hdw (by simpa using hemp)] at hp
      simp only [Bool.and_eq_true, beq_iff_eq] at hp
      obtain ⟨⟨⟨hcd, htw⟩, hdd⟩, hp2⟩ := hp
      rw [sub1_cons_match c rest d rest2 hq hdw (by simpa using hemp), ih hp2]
      have hrest : rest = innerValue ++ dquoteC :: rest2 := by
        conv_lhs => rw [← List.takeWhile_append_dropWhile
          (fun x => !isQuoteC x) rest]
        rw [htw, hdw, hdd]
      rw [hrest, hcd, valueTok_eq]
      simp
  | case5 c rest hq ih =>
      rw [pFix_cons_nonquote c rest (by simpa using hq)] at hp
      rw [sub1_cons_nonquote c rest (by simpa using hq), ih hp]

theorem sub2_nil : sub2 [] = [] := by simp [sub2]

theorem sub2_cons_nondigit (c : Char) (rest : List Char)
    (hc : c.isDigit = false) : sub2 (c :: rest) = c :: sub2 rest := by
  simp [sub2, hc]

theorem sub2_cons_digit (c : Char) (rest : List Char)
    (hc : c.isDigit = true) :
    sub2 (c :: rest) =
      (if 4 ≤ ((c :: rest).takeWhile Char.isDigit).length then numberTok
       else (c :: rest).takeWhile Char.isDigit)
        ++ sub2 ((c :: rest).dropWhile Char.isDigit) := by
  simp [sub2, hc]

theorem sub2_nondigit_pre (p t : List Char)
    (hp : ∀ x ∈ p, x.isDigit = false) : sub2 (p ++ t) = p ++ sub2 t := by
  induction p with
  | nil => rfl
  | cons c r ih =>
      rw [List.cons_append,
        sub2_cons_nondigit c (r ++ t) (hp c (List.mem_cons_self _ _)),
        ih (fun x hx => hp x (List.mem_cons_of_mem _ hx))]
      rfl

theorem sub2_nonquote (l : List Char) (hl : ∀ x ∈ l, isQuoteC x = false) :
    ∀ x ∈ sub2 l, isQuoteC x = false := by
  induction l using sub2.induct with
  | case1 => rw [sub2_nil]; intro x hx; cases hx
  | case2 c rest hdig ih =>
      rw [sub2_cons_digit c rest hdig]
      intro x hx
      rcases List.mem_append.mp hx with h1 | h2
      · revert h1
        split
        · intro h1; exact numberTok_nonquote x h1
        · intro h1
          exact hl x ((List.takeWhile_sublist _).subset h1)
      · exact ih (fun y hy => hl y ((List.dropWhile_sublist _).subset hy)) x h2
  | case3 c rest hdig ih =>
      rw [sub2_cons_nondigit c rest (by simpa using hdig)]
      intro x hx
      rcases List.mem_cons.mp hx with rfl | hx'
      · exact hl x (List.mem_cons_self _ _)
      · exact ih (fun y hy => hl y (List.mem_cons_of_mem _ hy)) x hx'

theorem dropWhile_takeWhile_nil {α : Type} (p : α → Bool) (l : List α) :
    (l.dropWhile p).takeWhile p = [] := by
  rcases h : l.dropWhile p with _ | ⟨d, t⟩
  · rfl
  · rw [List.takeWhile_cons, if_neg]
    rw [dropWhile_head_false p l d t h]
    simp

theorem sub2_takeWhile_digit_nil (l : List Char)
    (hl : l.takeWhile Char.isDigit = []) :
    (sub2 l).takeWhile Char.isDigit = [] := by
  cases l with
  | nil => rw [sub2_nil]; rfl
  | cons c t =>
      rw [List.takeWhile_cons] at hl
      by_cases hc : c.isDigit
      · rw [if_pos hc] at hl; cases hl
      · have hc' : c.isDigit = false := by simpa using hc
        rw [sub2_cons_nondigit c t hc', List.takeWhile_cons, if_neg]
        rw [hc']
        simp

theorem sub2_idem (l : List Char) : sub2 (sub2 l) = sub2 l := by
  induction l using sub2.induct with
  | case1 => rw [sub2_nil, sub2_nil]
  | case2 c rest hdig ih =>
      rw [sub2_cons_digit c rest hdig]
      have hrst : ((c :: rest).dropWhile Char.isDigit).takeWhile Char.isDigit
          = [] := dropWhile_takeWhile_nil Char.isDigit (c :: rest)
      have hytw : (sub2 ((c :: rest).dropWhile Char.isDigit)).takeWhile
          Char.isDigit = [] := sub2_takeWhile_digit_nil _ hrst
      split
      · -- long run: numberTok prefix
        rw [sub2_nondigit_pre numberTok _ numberTok_nondigit, ih]
      · -- short run
        rename_i hlen
        set run := (c :: rest).takeWhile Char.isDigit with hrun
        have hrund : ∀ x ∈ run, x.isDigit = true := takeWhile_all _ _
        have hrtw : (run ++ sub2 ((c :: rest).dropWhile Char.isDigit)).takeWhile
            Char.isDigit = run := by
          rw [takeWhile_append_all _ _ _ hrund, hytw, List.append_nil]
        have hrdw : (run ++ sub2 ((c :: rest).dropWhile Char.isDigit)).dropWhile
            Char.isDigit = sub2 ((c :: rest).dropWhile Char.isDigit) := by
          rw [dropWhile_append_all _ _ _ hrund]
          conv_rhs => rw [← List.takeWhile_append_dropWhile Char.isDigit
            (sub2 ((c :: rest).dropWhile Char.isDigit))]
          rw [hytw]
          rfl
        -- run starts with the digit c
        have hrunc : run = c :: rest.takeWhile Char.isDigit := by
          rw [hrun, List.takeWhile_cons, if_pos hdig]
        rw [hrunc, List.cons_append, sub2_cons_digit c _ (by exact hdig)]
        rw [← List.cons_append, ← hrunc, hrtw, hrdw]
        rw [if_neg hlen, ih]
  | case3 c rest hdig ih =>
      have hc' : c.isDigit = false := by simpa using hdig
      rw [sub2_cons_nondigit c rest hc', sub2_cons_nondigit c _ hc', ih]

theorem pFix_sub2_aux : ∀ n : Nat, ∀ u : List Char, u.length ≤ n →
    pFix u = true → pFix (sub2 u) = true := by
  intro n
  induction n with
  | zero =>
      intro u hu _
      have hnil : u = [] := List.length_eq_zero.mp (Nat.le_zero.mp hu)
      subst hnil
      rw [sub2_nil]; exact pFix_nil
  | succ n ih =>
      intro u hu hp
      cases u with
      | nil => rw [sub2_nil]; exact pFix_nil
      | cons c rest =>
          simp only [List.length_cons] at hu
          have hrlen : rest.length ≤ n := by omega
          by_cases hdig : c.isDigit
          · rw [sub2_cons_digit c rest hdig]
            have hrunq : ∀ x ∈ (c :: rest).takeWhile Char.isDigit,
                isQuoteC x = false :=
              fun x hx => isQuoteC_of_isDigit x (takeWhile_all _ _ x hx)
            have hXq : ∀ x ∈ (if 4 ≤ ((c :: rest).takeWhile Char.isDigit).length
                then numberTok else (c :: rest).takeWhile Char.isDigit),
                isQuoteC x = false := by
              split
              · exact numberTok_nonquote
              · exact hrunq
            rw [pFix_nonquote_pre _ _ hXq]
            have hpr : pFix ((c :: rest).dropWhile Char.isDigit) = true := by
              have hsplit := List.takeWhile_append_dropWhile Char.isDigit (c :: rest)
              rw [← hsplit] at hp
              rw [pFix_nonquote_pre _ _ hrunq] at hp
              exact hp
            have hdlen : ((c :: rest).dropWhile Char.isDigit).length ≤ n := by
              rw [List.dropWhile_cons, if_pos hdig]
              have := dropWhile_len_le Char.isDigit rest
              omega
            exact ih _ hdlen hpr
          · have hc' : c.isDigit = false := by simpa using hdig
            rw [sub2_cons_nondigit c rest hc']
            by_cases hq : isQuoteC c
            · rcases hdw : rest.dropWhile (fun x => !isQuoteC x) with _ | ⟨d, rest2⟩
              · have hall : ∀ x ∈ rest, isQuoteC x = false := by
                  intro x hx
                  have := all_of_dropWhile_nil _ rest hdw x hx
                  simpa using this
                have h2 : ∀ x ∈ sub2 rest, isQuoteC x = false :=
                  sub2_nonquote rest hall
                have hdw2 : (sub2 rest).dropWhile (fun x => !isQuoteC x) = [] :=
                  dropWhile_nil_of_all _ _ (fun x hx => by simp [h2 x hx])
                rw [pFix_cons_unclosed c _ hq hdw2]
                exact pFix_all_nonquote _ h2
              · by_cases hemp : (rest.takeWhile (fun x => !isQuoteC x)).isEmpty
                · have hrest : rest = d :: rest2 := by
                    conv_lhs => rw [← List.takeWhile_append_dropWhile
                      (fun x => !isQuoteC x) rest]
                    rw [List.isEmpty_iff.mp hemp, hdw]
                    rfl
                  have hdq : isQuoteC d = true := by
                    have := dropWhile_head_false (fun x => !isQuoteC x) rest d
                      rest2 hdw
                    simpa using this
                  rw [pFix_cons_emptyrun c rest d rest2 hq hdw hemp] at hp
                  have hdnd : d.isDigit = false := isDigit_of_isQuoteC d hdq
                  rw [hrest, sub2_cons_nondigit d rest2 hdnd]
                  have hdw3 : (d :: sub2 rest2).dropWhile (fun x => !isQuoteC x) =
                      d :: sub2 rest2 := by
                    rw [List.dropWhile_cons, if_neg]
                    rw [hdq]; simp
                  have hemp3 : ((d :: sub2 rest2).takeWhile
                      (fun x => !isQuoteC x)).isEmpty = true := by
                    rw [List.takeWhile_cons, if_neg]
                    · rfl
                    · rw [hdq]; simp
                  rw [pFix_cons_emptyrun c _ d (sub2 rest2) hq hdw3 hemp3]
                  have hgoal : pFix (sub2 (d :: rest2)) = true := by
                    apply ih
                    · rw [← hrest]; exact hrlen
                    · rw [← hrest]; exact hp
                  rw [sub2_cons_nondigit d rest2 hdnd] at hgoal
                  exact hgoal
                · have hempf : (rest.takeWhile (fun x => !isQuoteC x)).isEmpty
                      = false := by simpa using hemp
                  rw [pFix_cons_match c rest d rest2 hq hdw hempf] at hp
                  simp only [Bool.and_eq_true, beq_iff_eq] at hp
                  obtain ⟨⟨⟨hcd, htw⟩, hdd⟩, hp2⟩ := hp
                  have hrest : rest = innerValue ++ dquoteC :: rest2 := by
                    conv_lhs => rw [← List.takeWhile_append_dropWhile
                      (fun x => !isQuoteC x) rest]
                    rw [htw, hdw, hdd]
                  have hr2len : rest2.length ≤ n := by
                    have hlen2 : rest.length =
                        innerValue.length + rest2.length + 1 := by
                      rw [hrest, List.length_append, List.length_cons]
                      omega
                    omega
                  rw [hrest, sub2_nondigit_pre innerValue _ innerValue_nondigit,
                    sub2_cons_nondigit dquoteC rest2 (by decide)]
                  subst hcd
                  have hshape : (dquoteC :: (innerValue ++ dquoteC :: sub2 rest2))
                      = valueTok ++ sub2 rest2 := by
                    rw [valueTok_eq]; simp
                  rw [hshape, pFix_valueTok_append]
                  exact ih rest2 hr2len hp2
            · have hqf : isQuoteC c = false := by simpa using hq
              rw [pFix_cons_nonquote c rest hqf] at hp
              rw [pFix_cons_nonquote c (sub2 rest) hqf]
              exact ih rest hrlen hp

theorem pFix_sub2 (u : List Char) (hp : pFix u = true) :
    pFix (sub2 u) = true :=
  pFix_sub2_aux u.length u le_rfl hp

/-- C8: the `_learn_step` normalization (quoted literals to `"{value}"`,
then digit runs of length 4+ to `{number}`) is idempotent: normalizing an
already-normalized step string returns the identical string. -/
theorem c8_normalize_idempotent (s : Str) :
    normalizeStep (normalizeStep s) = normalizeStep s := by
  unfold normalizeStep
  rw [sub1_of_pFix _ (pFix_sub2 _ (pFix_sub1 s)), sub2_idem]
